import Mathlib

/-!
LOVR platform glue, `core/os_linux.c` and `headset/desktop.c`.

A shallow embedding of the XCB event pump (`os_poll_events`), its scancode
translator (`convertKey`) and the keyboard/mouse driven simulator headset
(`init`, `getPose`, `update`), followed by the properties established for them.

Conventions of the embedding:
* C unsigned integers are `Nat`, signed ones `Int`; a pointer is modelled by what
  the code asks of it (`NULL` or not), a callback pointer by whether it is set.
* Invocations of the registered callbacks are recorded, in order, as a list of
  `Call` values returned next to the new state.
* `float` and `double` values are rationals and their arithmetic is exact: no
  rounding, no infinities and no NaN.  A `float` literal denotes the rational it
  is stored as.
* A quotient by zero, an infinity or NaN in C, has no counterpart among the
  rationals (it evaluates to 0 there).  The driver is therefore embedded a second
  time, in `Desktop.Ieee`, over values that may be infinite or NaN; the two
  embeddings agree on finite states in frames without a division by zero.
-/

namespace OsLinux

/-! ## Key identifiers and Linux input scancodes -/

/-- Modelled from the spec: the `os_key` enumeration of `os.h`, the "fixed enum
value" that the Key Code Translator returns, with the sentinel `OS_KEY_COUNT`
as its last enumerator.  The enumerators are the ones `convertKey` names; the
properties below use only that they are distinct and that `OS_KEY_COUNT` comes
last. -/
inductive os_key where
  | OS_KEY_A
  | OS_KEY_B
  | OS_KEY_C
  | OS_KEY_D
  | OS_KEY_E
  | OS_KEY_F
  | OS_KEY_G
  | OS_KEY_H
  | OS_KEY_I
  | OS_KEY_J
  | OS_KEY_K
  | OS_KEY_L
  | OS_KEY_M
  | OS_KEY_N
  | OS_KEY_O
  | OS_KEY_P
  | OS_KEY_Q
  | OS_KEY_R
  | OS_KEY_S
  | OS_KEY_T
  | OS_KEY_U
  | OS_KEY_V
  | OS_KEY_W
  | OS_KEY_X
  | OS_KEY_Y
  | OS_KEY_Z
  | OS_KEY_0
  | OS_KEY_1
  | OS_KEY_2
  | OS_KEY_3
  | OS_KEY_4
  | OS_KEY_5
  | OS_KEY_6
  | OS_KEY_7
  | OS_KEY_8
  | OS_KEY_9
  | OS_KEY_SPACE
  | OS_KEY_ENTER
  | OS_KEY_TAB
  | OS_KEY_ESCAPE
  | OS_KEY_BACKSPACE
  | OS_KEY_UP
  | OS_KEY_DOWN
  | OS_KEY_LEFT
  | OS_KEY_RIGHT
  | OS_KEY_HOME
  | OS_KEY_END
  | OS_KEY_PAGE_UP
  | OS_KEY_PAGE_DOWN
  | OS_KEY_INSERT
  | OS_KEY_DELETE
  | OS_KEY_F1
  | OS_KEY_F2
  | OS_KEY_F3
  | OS_KEY_F4
  | OS_KEY_F5
  | OS_KEY_F6
  | OS_KEY_F7
  | OS_KEY_F8
  | OS_KEY_F9
  | OS_KEY_F10
  | OS_KEY_F11
  | OS_KEY_F12
  | OS_KEY_BACKTICK
  | OS_KEY_MINUS
  | OS_KEY_EQUALS
  | OS_KEY_LEFT_BRACKET
  | OS_KEY_RIGHT_BRACKET
  | OS_KEY_BACKSLASH
  | OS_KEY_SEMICOLON
  | OS_KEY_APOSTROPHE
  | OS_KEY_COMMA
  | OS_KEY_PERIOD
  | OS_KEY_SLASH
  | OS_KEY_LEFT_CONTROL
  | OS_KEY_LEFT_SHIFT
  | OS_KEY_LEFT_ALT
  | OS_KEY_LEFT_OS
  | OS_KEY_RIGHT_CONTROL
  | OS_KEY_RIGHT_SHIFT
  | OS_KEY_RIGHT_ALT
  | OS_KEY_RIGHT_OS
  | OS_KEY_CAPS_LOCK
  | OS_KEY_SCROLL_LOCK
  | OS_KEY_NUM_LOCK
  | OS_KEY_COUNT
  deriving DecidableEq, Repr

open os_key

/-- Numeric value of an enumerator, as C assigns it: its position in the
enumeration, starting from 0. -/
def os_key.val (k : os_key) : Nat :=
  k.toCtorIdx

/-! Scancodes of `<linux/input-event-codes.h>` used by `convertKey`. -/

def KEY_ESC : Int := 1
def KEY_1 : Int := 2
def KEY_2 : Int := 3
def KEY_3 : Int := 4
def KEY_4 : Int := 5
def KEY_5 : Int := 6
def KEY_6 : Int := 7
def KEY_7 : Int := 8
def KEY_8 : Int := 9
def KEY_9 : Int := 10
def KEY_0 : Int := 11
def KEY_MINUS : Int := 12
def KEY_EQUAL : Int := 13
def KEY_BACKSPACE : Int := 14
def KEY_TAB : Int := 15
def KEY_Q : Int := 16
def KEY_W : Int := 17
def KEY_E : Int := 18
def KEY_R : Int := 19
def KEY_T : Int := 20
def KEY_Y : Int := 21
def KEY_U : Int := 22
def KEY_I : Int := 23
def KEY_O : Int := 24
def KEY_P : Int := 25
def KEY_LEFTBRACE : Int := 26
def KEY_RIGHTBRACE : Int := 27
def KEY_ENTER : Int := 28
def KEY_LEFTCTRL : Int := 29
def KEY_A : Int := 30
def KEY_S : Int := 31
def KEY_D : Int := 32
def KEY_F : Int := 33
def KEY_G : Int := 34
def KEY_H : Int := 35
def KEY_J : Int := 36
def KEY_K : Int := 37
def KEY_L : Int := 38
def KEY_SEMICOLON : Int := 39
def KEY_APOSTROPHE : Int := 40
def KEY_GRAVE : Int := 41
def KEY_LEFTSHIFT : Int := 42
def KEY_BACKSLASH : Int := 43
def KEY_Z : Int := 44
def KEY_X : Int := 45
def KEY_C : Int := 46
def KEY_V : Int := 47
def KEY_B : Int := 48
def KEY_N : Int := 49
def KEY_M : Int := 50
def KEY_COMMA : Int := 51
def KEY_DOT : Int := 52
def KEY_SLASH : Int := 53
def KEY_RIGHTSHIFT : Int := 54
def KEY_LEFTALT : Int := 56
def KEY_SPACE : Int := 57
def KEY_CAPSLOCK : Int := 58
def KEY_F1 : Int := 59
def KEY_F2 : Int := 60
def KEY_F3 : Int := 61
def KEY_F4 : Int := 62
def KEY_F5 : Int := 63
def KEY_F6 : Int := 64
def KEY_F7 : Int := 65
def KEY_F8 : Int := 66
def KEY_F9 : Int := 67
def KEY_F10 : Int := 68
def KEY_NUMLOCK : Int := 69
def KEY_SCROLLLOCK : Int := 70
def KEY_F11 : Int := 87
def KEY_F12 : Int := 88
def KEY_RIGHTCTRL : Int := 97
def KEY_RIGHTALT : Int := 100
def KEY_HOME : Int := 102
def KEY_UP : Int := 103
def KEY_PAGEUP : Int := 104
def KEY_LEFT : Int := 105
def KEY_RIGHT : Int := 106
def KEY_END : Int := 107
def KEY_DOWN : Int := 108
def KEY_PAGEDOWN : Int := 109
def KEY_INSERT : Int := 110
def KEY_DELETE : Int := 111
def KEY_LEFTMETA : Int := 125
def KEY_RIGHTMETA : Int := 126

/-- Source `convertKey`: `switch (keycode - 8)`.  The `uint8_t` argument is
promoted to `int` before the subtraction, so the switch value is negative for
keycodes below 8 and matches no case label. -/
def convertKey (keycode : Nat) : os_key :=
  let code : Int := (keycode : Int) - 8
  if code = KEY_ESC then OS_KEY_ESCAPE
  else if code = KEY_1 then OS_KEY_1
  else if code = KEY_2 then OS_KEY_2
  else if code = KEY_3 then OS_KEY_3
  else if code = KEY_4 then OS_KEY_4
  else if code = KEY_5 then OS_KEY_5
  else if code = KEY_6 then OS_KEY_6
  else if code = KEY_7 then OS_KEY_7
  else if code = KEY_8 then OS_KEY_8
  else if code = KEY_9 then OS_KEY_9
  else if code = KEY_0 then OS_KEY_0
  else if code = KEY_MINUS then OS_KEY_MINUS
  else if code = KEY_EQUAL then OS_KEY_EQUALS
  else if code = KEY_BACKSPACE then OS_KEY_BACKSPACE
  else if code = KEY_TAB then OS_KEY_TAB
  else if code = KEY_Q then OS_KEY_Q
  else if code = KEY_W then OS_KEY_W
  else if code = KEY_E then OS_KEY_E
  else if code = KEY_R then OS_KEY_R
  else if code = KEY_T then OS_KEY_T
  else if code = KEY_Y then OS_KEY_Y
  else if code = KEY_U then OS_KEY_U
  else if code = KEY_I then OS_KEY_I
  else if code = KEY_O then OS_KEY_O
  else if code = KEY_P then OS_KEY_P
  else if code = KEY_LEFTBRACE then OS_KEY_LEFT_BRACKET
  else if code = KEY_RIGHTBRACE then OS_KEY_RIGHT_BRACKET
  else if code = KEY_ENTER then OS_KEY_ENTER
  else if code = KEY_LEFTCTRL then OS_KEY_LEFT_CONTROL
  else if code = KEY_A then OS_KEY_A
  else if code = KEY_S then OS_KEY_S
  else if code = KEY_D then OS_KEY_D
  else if code = KEY_F then OS_KEY_F
  else if code = KEY_G then OS_KEY_G
  else if code = KEY_H then OS_KEY_H
  else if code = KEY_J then OS_KEY_J
  else if code = KEY_K then OS_KEY_K
  else if code = KEY_L then OS_KEY_L
  else if code = KEY_SEMICOLON then OS_KEY_SEMICOLON
  else if code = KEY_APOSTROPHE then OS_KEY_APOSTROPHE
  else if code = KEY_GRAVE then OS_KEY_BACKTICK
  else if code = KEY_LEFTSHIFT then OS_KEY_LEFT_SHIFT
  else if code = KEY_BACKSLASH then OS_KEY_BACKSLASH
  else if code = KEY_Z then OS_KEY_Z
  else if code = KEY_X then OS_KEY_X
  else if code = KEY_C then OS_KEY_C
  else if code = KEY_V then OS_KEY_V
  else if code = KEY_B then OS_KEY_B
  else if code = KEY_N then OS_KEY_N
  else if code = KEY_M then OS_KEY_M
  else if code = KEY_COMMA then OS_KEY_COMMA
  else if code = KEY_DOT then OS_KEY_PERIOD
  else if code = KEY_SLASH then OS_KEY_SLASH
  else if code = KEY_RIGHTSHIFT then OS_KEY_RIGHT_SHIFT
  else if code = KEY_LEFTALT then OS_KEY_LEFT_ALT
  else if code = KEY_SPACE then OS_KEY_SPACE
  else if code = KEY_CAPSLOCK then OS_KEY_CAPS_LOCK
  else if code = KEY_F1 then OS_KEY_F1
  else if code = KEY_F2 then OS_KEY_F2
  else if code = KEY_F3 then OS_KEY_F3
  else if code = KEY_F4 then OS_KEY_F4
  else if code = KEY_F5 then OS_KEY_F5
  else if code = KEY_F6 then OS_KEY_F6
  else if code = KEY_F7 then OS_KEY_F7
  else if code = KEY_F8 then OS_KEY_F8
  else if code = KEY_F9 then OS_KEY_F9
  else if code = KEY_F10 then OS_KEY_F10
  else if code = KEY_NUMLOCK then OS_KEY_NUM_LOCK
  else if code = KEY_SCROLLLOCK then OS_KEY_SCROLL_LOCK
  else if code = KEY_F11 then OS_KEY_F11
  else if code = KEY_F12 then OS_KEY_F12
  else if code = KEY_RIGHTCTRL then OS_KEY_RIGHT_CONTROL
  else if code = KEY_RIGHTALT then OS_KEY_RIGHT_ALT
  else if code = KEY_HOME then OS_KEY_HOME
  else if code = KEY_UP then OS_KEY_UP
  else if code = KEY_PAGEUP then OS_KEY_PAGE_UP
  else if code = KEY_LEFT then OS_KEY_LEFT
  else if code = KEY_RIGHT then OS_KEY_RIGHT
  else if code = KEY_END then OS_KEY_END
  else if code = KEY_DOWN then OS_KEY_DOWN
  else if code = KEY_PAGEDOWN then OS_KEY_PAGE_DOWN
  else if code = KEY_INSERT then OS_KEY_INSERT
  else if code = KEY_DELETE then OS_KEY_DELETE
  else if code = KEY_LEFTMETA then OS_KEY_LEFT_OS
  else if code = KEY_RIGHTMETA then OS_KEY_RIGHT_OS
  else OS_KEY_COUNT

/-- The rows of the `convertKey` switch, in source order: each case label with
the key returned for it. -/
def keyTable : List (Int × os_key) :=
  [(KEY_ESC, OS_KEY_ESCAPE),
   (KEY_1, OS_KEY_1),
   (KEY_2, OS_KEY_2),
   (KEY_3, OS_KEY_3),
   (KEY_4, OS_KEY_4),
   (KEY_5, OS_KEY_5),
   (KEY_6, OS_KEY_6),
   (KEY_7, OS_KEY_7),
   (KEY_8, OS_KEY_8),
   (KEY_9, OS_KEY_9),
   (KEY_0, OS_KEY_0),
   (KEY_MINUS, OS_KEY_MINUS),
   (KEY_EQUAL, OS_KEY_EQUALS),
   (KEY_BACKSPACE, OS_KEY_BACKSPACE),
   (KEY_TAB, OS_KEY_TAB),
   (KEY_Q, OS_KEY_Q),
   (KEY_W, OS_KEY_W),
   (KEY_E, OS_KEY_E),
   (KEY_R, OS_KEY_R),
   (KEY_T, OS_KEY_T),
   (KEY_Y, OS_KEY_Y),
   (KEY_U, OS_KEY_U),
   (KEY_I, OS_KEY_I),
   (KEY_O, OS_KEY_O),
   (KEY_P, OS_KEY_P),
   (KEY_LEFTBRACE, OS_KEY_LEFT_BRACKET),
   (KEY_RIGHTBRACE, OS_KEY_RIGHT_BRACKET),
   (KEY_ENTER, OS_KEY_ENTER),
   (KEY_LEFTCTRL, OS_KEY_LEFT_CONTROL),
   (KEY_A, OS_KEY_A),
   (KEY_S, OS_KEY_S),
   (KEY_D, OS_KEY_D),
   (KEY_F, OS_KEY_F),
   (KEY_G, OS_KEY_G),
   (KEY_H, OS_KEY_H),
   (KEY_J, OS_KEY_J),
   (KEY_K, OS_KEY_K),
   (KEY_L, OS_KEY_L),
   (KEY_SEMICOLON, OS_KEY_SEMICOLON),
   (KEY_APOSTROPHE, OS_KEY_APOSTROPHE),
   (KEY_GRAVE, OS_KEY_BACKTICK),
   (KEY_LEFTSHIFT, OS_KEY_LEFT_SHIFT),
   (KEY_BACKSLASH, OS_KEY_BACKSLASH),
   (KEY_Z, OS_KEY_Z),
   (KEY_X, OS_KEY_X),
   (KEY_C, OS_KEY_C),
   (KEY_V, OS_KEY_V),
   (KEY_B, OS_KEY_B),
   (KEY_N, OS_KEY_N),
   (KEY_M, OS_KEY_M),
   (KEY_COMMA, OS_KEY_COMMA),
   (KEY_DOT, OS_KEY_PERIOD),
   (KEY_SLASH, OS_KEY_SLASH),
   (KEY_RIGHTSHIFT, OS_KEY_RIGHT_SHIFT),
   (KEY_LEFTALT, OS_KEY_LEFT_ALT),
   (KEY_SPACE, OS_KEY_SPACE),
   (KEY_CAPSLOCK, OS_KEY_CAPS_LOCK),
   (KEY_F1, OS_KEY_F1),
   (KEY_F2, OS_KEY_F2),
   (KEY_F3, OS_KEY_F3),
   (KEY_F4, OS_KEY_F4),
   (KEY_F5, OS_KEY_F5),
   (KEY_F6, OS_KEY_F6),
   (KEY_F7, OS_KEY_F7),
   (KEY_F8, OS_KEY_F8),
   (KEY_F9, OS_KEY_F9),
   (KEY_F10, OS_KEY_F10),
   (KEY_NUMLOCK, OS_KEY_NUM_LOCK),
   (KEY_SCROLLLOCK, OS_KEY_SCROLL_LOCK),
   (KEY_F11, OS_KEY_F11),
   (KEY_F12, OS_KEY_F12),
   (KEY_RIGHTCTRL, OS_KEY_RIGHT_CONTROL),
   (KEY_RIGHTALT, OS_KEY_RIGHT_ALT),
   (KEY_HOME, OS_KEY_HOME),
   (KEY_UP, OS_KEY_UP),
   (KEY_PAGEUP, OS_KEY_PAGE_UP),
   (KEY_LEFT, OS_KEY_LEFT),
   (KEY_RIGHT, OS_KEY_RIGHT),
   (KEY_END, OS_KEY_END),
   (KEY_DOWN, OS_KEY_DOWN),
   (KEY_PAGEDOWN, OS_KEY_PAGE_DOWN),
   (KEY_INSERT, OS_KEY_INSERT),
   (KEY_DELETE, OS_KEY_DELETE),
   (KEY_LEFTMETA, OS_KEY_LEFT_OS),
   (KEY_RIGHTMETA, OS_KEY_RIGHT_OS)]

/-! ## Module state, events and callbacks -/

/-- Modelled from the spec: the mouse buttons of `os.h`, "2 buttons:
left/right", indexing `state.mouseDown`. -/
inductive os_mouse_button where
  | MOUSE_LEFT
  | MOUSE_RIGHT
  deriving DecidableEq, Repr

open os_mouse_button

/-- Statuses of `enum xkb_compose_status` (`<xkbcommon/xkbcommon-compose.h>`). -/
inductive xkb_compose_status where
  | XKB_COMPOSE_NOTHING
  | XKB_COMPOSE_COMPOSING
  | XKB_COMPOSE_COMPOSED
  | XKB_COMPOSE_CANCELLED
  deriving DecidableEq, Repr

open xkb_compose_status

/-- The xkbcommon entry points `os_poll_events` calls, over a keyboard state
`K` and a compose state `C`.  The library is external: its functions are
parameters of the embedding.  A function that mutates its handle returns the
new value; keysyms and codepoints are `uint32_t`. -/
structure Xkb (K C : Type) where
  xkb_state_key_get_one_sym : K → Nat → Nat
  xkb_state_key_get_utf32 : K → Nat → Nat
  xkb_state_update_mask : K → Nat → Nat → Nat → Int → Int → Int → K
  xkb_compose_state_feed : C → Nat → C
  xkb_compose_state_get_status : C → xkb_compose_status
  xkb_compose_state_get_one_sym : C → Nat
  xkb_compose_state_reset : C → C
  xkb_keysym_to_utf32 : Nat → Nat

/-- The fields of the module-level `state` that event handling reads or writes.
`connection` is the pointer value (0 is `NULL`), `deleteWindowAtom` stands for
`state.deleteWindow->atom`, and each `on...` field tells whether that callback
pointer is set. -/
structure State (K C : Type) where
  connection : Nat
  keystate : K
  compose : C
  xkbCode : Nat
  deleteWindowAtom : Nat
  onQuit : Bool
  onFocus : Bool
  onResize : Bool
  onKey : Bool
  onText : Bool
  width : Nat
  height : Nat
  keyDown : os_key → Bool
  mouseDown : os_mouse_button → Bool
  mouseX : ℚ
  mouseY : ℚ

/-- One invocation of a registered callback, with its arguments. -/
inductive Call where
  | onQuit
  | onFocus (focused : Bool)
  | onResize (width height : Nat)
  | onKey (released : Bool) (key : os_key) (keycode : Nat) (repeated : Bool)
  | onText (codepoint : Nat)
  deriving DecidableEq, Repr

/-- An event returned by `xcb_poll_for_event`: the `response_type` byte and the
fields that the views of the `event` union read. -/
structure Event where
  response_type : Nat
  detail : Nat := 0
  data32_0 : Nat := 0
  width : Nat := 0
  height : Nat := 0
  event_x : Int := 0
  event_y : Int := 0
  mode : Nat := 0
  xkbType : Nat := 0
  baseMods : Nat := 0
  latchedMods : Nat := 0
  lockedMods : Nat := 0
  baseGroup : Int := 0
  latchedGroup : Int := 0
  lockedGroup : Int := 0
  deriving DecidableEq, Repr

/-! Event codes of `<xcb/xproto.h>` and `<xcb/xkb.h>`. -/

def XCB_KEY_PRESS : Nat := 2
def XCB_KEY_RELEASE : Nat := 3
def XCB_BUTTON_PRESS : Nat := 4
def XCB_BUTTON_RELEASE : Nat := 5
def XCB_MOTION_NOTIFY : Nat := 6
def XCB_FOCUS_IN : Nat := 9
def XCB_FOCUS_OUT : Nat := 10
def XCB_CONFIGURE_NOTIFY : Nat := 22
def XCB_CLIENT_MESSAGE : Nat := 33
def XCB_NOTIFY_MODE_GRAB : Nat := 1
def XCB_NOTIFY_MODE_UNGRAB : Nat := 2
def XCB_XKB_STATE_NOTIFY : Nat := 2

/-- The `type` of an event: `event.any->response_type & 0x7f`. -/
def Event.type (event : Event) : Nat :=
  event.response_type &&& 0x7f

/-- Source `os_is_key_down`. -/
def os_is_key_down {K C : Type} (s : State K C) (key : os_key) : Bool :=
  s.keyDown key

/-- Source `os_is_mouse_down`. -/
def os_is_mouse_down {K C : Type} (s : State K C) (button : os_mouse_button) : Bool :=
  s.mouseDown button

/-! ## The event pump -/

/-- Text input of a key press (`os_poll_events`, the block under
`type == XCB_KEY_PRESS && state.onText`): feed the keysym to the compose
engine and act on the status it reports. -/
def textInput {K C : Type} (xkb : Xkb K C) (s : State K C) (keycode : Nat) :
    State K C × List Call :=
  let keysym := xkb.xkb_state_key_get_one_sym s.keystate keycode
  let fed := xkb.xkb_compose_state_feed s.compose keysym
  let status := xkb.xkb_compose_state_get_status fed
  if status = XKB_COMPOSE_COMPOSED then
    let composed := xkb.xkb_compose_state_get_one_sym fed
    let codepoint := xkb.xkb_keysym_to_utf32 composed
    ({ s with compose := xkb.xkb_compose_state_reset fed }, [Call.onText codepoint])
  else if status = XKB_COMPOSE_CANCELLED then
    ({ s with compose := xkb.xkb_compose_state_reset fed }, [])
  else
    let codepoint := xkb.xkb_state_key_get_utf32 s.keystate keycode
    ({ s with compose := fed }, [Call.onText codepoint])

/-- The `XCB_KEY_PRESS` / `XCB_KEY_RELEASE` case of `os_poll_events`. -/
def keyEvent {K C : Type} (xkb : Xkb K C) (s : State K C) (event : Event) :
    State K C × List Call :=
  let type := event.type
  let keycode := event.detail
  let key := convertKey keycode
  let r1 : State K C × List Call :=
    if key.val < OS_KEY_COUNT.val then
      ({ s with keyDown := Function.update s.keyDown key (decide (type = XCB_KEY_PRESS)) },
        if s.onKey then [Call.onKey (decide (type = XCB_KEY_RELEASE)) key keycode false] else [])
    else (s, [])
  if type = XCB_KEY_PRESS ∧ r1.1.onText = true then
    let r2 := textInput xkb r1.1 keycode
    (r2.1, r1.2 ++ r2.2)
  else r1

/-- The body of the `while` loop of `os_poll_events`: the `switch (type)` on
one event. -/
def os_poll_events_body {K C : Type} (xkb : Xkb K C) (s : State K C) (event : Event) :
    State K C × List Call :=
  let type := event.type
  if type = XCB_CLIENT_MESSAGE then
    if event.data32_0 = s.deleteWindowAtom ∧ s.onQuit = true then (s, [Call.onQuit])
    else (s, [])
  else if type = XCB_CONFIGURE_NOTIFY then
    if event.width ≠ s.width ∨ event.height ≠ s.height then
      let s1 := { s with width := event.width, height := event.height }
      (s1, if s1.onResize then [Call.onResize s1.width s1.height] else [])
    else (s, [])
  else if type = XCB_KEY_PRESS ∨ type = XCB_KEY_RELEASE then
    keyEvent xkb s event
  else if type = XCB_BUTTON_PRESS ∨ type = XCB_BUTTON_RELEASE then
    if event.detail = 1 then
      ({ s with mouseDown :=
          Function.update s.mouseDown MOUSE_LEFT (decide (type = XCB_BUTTON_PRESS)) }, [])
    else if event.detail = 3 then
      ({ s with mouseDown :=
          Function.update s.mouseDown MOUSE_RIGHT (decide (type = XCB_BUTTON_PRESS)) }, [])
    else (s, [])
  else if type = XCB_MOTION_NOTIFY then
    ({ s with mouseX := (event.event_x : ℚ), mouseY := (event.event_y : ℚ) }, [])
  else if type = XCB_FOCUS_IN ∨ type = XCB_FOCUS_OUT then
    if event.mode = XCB_NOTIFY_MODE_GRAB ∨ event.mode = XCB_NOTIFY_MODE_UNGRAB then (s, [])
    else (s, if s.onFocus then [Call.onFocus (decide (type = XCB_FOCUS_IN))] else [])
  else if event.response_type = s.xkbCode ∧ event.xkbType = XCB_XKB_STATE_NOTIFY then
    let keystate := xkb.xkb_state_update_mask s.keystate event.baseMods event.latchedMods
      event.lockedMods event.baseGroup event.latchedGroup event.lockedGroup
    ({ s with keystate := keystate }, [])
  else (s, [])

/-- The `while` loop of `os_poll_events` over the events that
`xcb_poll_for_event` hands out before it returns `NULL`. -/
def os_poll_events_loop {K C : Type} (xkb : Xkb K C) :
    State K C → List Event → State K C × List Call
  | s, [] => (s, [])
  | s, event :: rest =>
    let r1 := os_poll_events_body xkb s event
    let r2 := os_poll_events_loop xkb r1.1 rest
    (r2.1, r1.2 ++ r2.2)

/-- Source `os_poll_events`, given the queue of pending events: nothing happens
without a connection. -/
def os_poll_events {K C : Type} (xkb : Xkb K C) (s : State K C) (queue : List Event) :
    State K C × List Call :=
  if s.connection = 0 then (s, []) else os_poll_events_loop xkb s queue

/-! ## Reference readings of the event stream -/

/-- Whether `event` is a key event whose keycode converts to `k`. -/
def Event.isKeyOf (event : Event) (k : os_key) : Bool :=
  decide ((event.type = XCB_KEY_PRESS ∨ event.type = XCB_KEY_RELEASE) ∧
    convertKey event.detail = k)

/-- The last event of the sequence that is a key event converting to `k`:
`some true` when it is a press, `some false` when it is a release, `none` when
the sequence has no such event. -/
def lastKeyEvent (k : os_key) : List Event → Option Bool
  | [] => none
  | event :: rest =>
    match lastKeyEvent k rest with
    | some pressed => some pressed
    | none => if event.isKeyOf k then some (decide (event.type = XCB_KEY_PRESS)) else none

/-- The sizes of a sequence that differ from the size before them, `cached`
being the size before the first. -/
def sizeChanges (cached : Nat × Nat) : List (Nat × Nat) → List (Nat × Nat)
  | [] => []
  | size :: rest =>
    if size = cached then sizeChanges cached rest else size :: sizeChanges size rest

/-- The codepoints passed to the text callback, in order. -/
def textCalls : List Call → List Nat
  | [] => []
  | Call.onText codepoint :: rest => codepoint :: textCalls rest
  | _ :: rest => textCalls rest

/-- Whether `keycode - 8` is one of the case labels of `convertKey`. -/
def isRecognized (keycode : Nat) : Bool :=
  keyTable.any fun row => decide (row.1 = (keycode : Int) - 8)

/-- The keycode listed for a key in `keyTable` (0 when the key is not listed). -/
def keycodeOf (key : os_key) : Nat :=
  match keyTable.find? fun row => decide (row.2 = key) with
  | some row => (row.1 + 8).toNat
  | none => 0

/-! ## A small keyboard for closed examples

Three keys and one compose sequence, `<Multi_key> <apostrophe> <e>` giving
`eacute`, behind the `Xkb` interface. -/

def XKB_KEY_Multi_key : Nat := 0xff20
def XKB_KEY_apostrophe : Nat := 0x27
def XKB_KEY_e : Nat := 0x65
def XKB_KEY_eacute : Nat := 0xe9

/-- Compose state of the example keyboard: the keysyms of the sequence in
progress, the status of the last feed and the keysym it produced. -/
structure SampleCompose where
  pending : List Nat
  status : xkb_compose_status
  sym : Nat
  deriving DecidableEq, Repr

/-- The only sequence of the example compose table. -/
def sampleSequence : List Nat :=
  [XKB_KEY_Multi_key, XKB_KEY_apostrophe, XKB_KEY_e]

/-- Feeding a keysym: it completes the sequence, continues it, cancels one in
progress, or starts nothing. -/
def sampleFeed (c : SampleCompose) (sym : Nat) : SampleCompose :=
  let seq := (if c.status = XKB_COMPOSE_COMPOSING then c.pending else []) ++ [sym]
  if seq = sampleSequence then ⟨[], XKB_COMPOSE_COMPOSED, XKB_KEY_eacute⟩
  else if seq = sampleSequence.take seq.length then ⟨seq, XKB_COMPOSE_COMPOSING, 0⟩
  else if c.status = XKB_COMPOSE_COMPOSING then ⟨[], XKB_COMPOSE_CANCELLED, 0⟩
  else ⟨[], XKB_COMPOSE_NOTHING, 0⟩

/-- Keysym of a keycode on the example keyboard: Right Alt is the compose key. -/
def sampleKeysym (keycode : Nat) : Nat :=
  if (keycode : Int) - 8 = KEY_RIGHTALT then XKB_KEY_Multi_key
  else if (keycode : Int) - 8 = KEY_APOSTROPHE then XKB_KEY_apostrophe
  else if (keycode : Int) - 8 = KEY_E then XKB_KEY_e
  else 0

/-- Codepoint of a keysym: Latin-1 keysyms are their codepoint, the others have
none (0). -/
def sampleUtf32 (sym : Nat) : Nat :=
  if (0x20 ≤ sym ∧ sym ≤ 0x7e) ∨ (0xa0 ≤ sym ∧ sym ≤ 0xff) then sym else 0

/-- The example keyboard. -/
def sampleXkb : Xkb Unit SampleCompose where
  xkb_state_key_get_one_sym := fun _ keycode => sampleKeysym keycode
  xkb_state_key_get_utf32 := fun _ keycode => sampleUtf32 (sampleKeysym keycode)
  xkb_state_update_mask := fun k _ _ _ _ _ _ => k
  xkb_compose_state_feed := sampleFeed
  xkb_compose_state_get_status := fun c => c.status
  xkb_compose_state_get_one_sym := fun c => c.sym
  xkb_compose_state_reset := fun _ => ⟨[], XKB_COMPOSE_NOTHING, 0⟩
  xkb_keysym_to_utf32 := sampleUtf32

/-- An open 800x600 window on the example keyboard: no key or button down,
only the resize and text callbacks registered. -/
def sampleState : State Unit SampleCompose where
  connection := 1
  keystate := ()
  compose := ⟨[], XKB_COMPOSE_NOTHING, 0⟩
  xkbCode := 85
  deleteWindowAtom := 300
  onQuit := false
  onFocus := false
  onResize := true
  onKey := false
  onText := true
  width := 800
  height := 600
  keyDown := fun _ => false
  mouseDown := fun _ => false
  mouseX := 0
  mouseY := 0

/-- A key press event for `keycode`. -/
def pressOf (keycode : Nat) : Event :=
  { response_type := XCB_KEY_PRESS, detail := keycode }

/-- A key release event for `keycode`. -/
def releaseOf (keycode : Nat) : Event :=
  { response_type := XCB_KEY_RELEASE, detail := keycode }

/-- A configure-notify event carrying a window size. -/
def configureOf (width height : Nat) : Event :=
  { response_type := XCB_CONFIGURE_NOTIFY, width := width, height := height }

/-- The example window after the compose key and the apostrophe were pressed. -/
def sampleComposing : State Unit SampleCompose :=
  { sampleState with
    compose := ⟨[XKB_KEY_Multi_key, XKB_KEY_apostrophe], XKB_COMPOSE_COMPOSING, 0⟩ }

/-! ## Window lifecycle -/

/-- Modelled from the spec: the `os_window_config` of `os.h`, "config: {width,
height, fullscreen, title}". -/
structure os_window_config where
  width : Nat
  height : Nat
  fullscreen : Bool
  title : String

/-- What the X server and xkbcommon answer during one call of
`os_window_open`: the pointer returned by `xcb_connect` (never `NULL`, by the
contract of `<xcb/xcb.h>`: "Always returns a non-NULL pointer to a
xcb_connection_t, even on failure"), whether `xcb_connection_has_error`
reports an error for it, the first XKB event code, the keyboard and compose
state created, the screen size and the `WM_DELETE_WINDOW` atom. -/
structure XServer (K C : Type) where
  connection : Nat
  has_error : Bool
  xkbCode : Nat
  keystate : K
  compose : C
  width_in_pixels : Nat
  height_in_pixels : Nat
  deleteWindowAtom : Nat

/-- Source `os_window_open`: returns the flag and the new state.  The pointer
from `xcb_connect` is stored first; on an error the connection is disconnected
and `false` returned, with no other field touched.  `w` and `h` are
`uint16_t`. -/
def os_window_open {K C : Type} (x : XServer K C) (s : State K C) (config : os_window_config) :
    Bool × State K C :=
  let s1 := { s with connection := x.connection }
  if x.has_error then (false, s1)
  else
    let w := if config.fullscreen then x.width_in_pixels % 2 ^ 16 else config.width % 2 ^ 16
    let h := if config.fullscreen then x.height_in_pixels % 2 ^ 16 else config.height % 2 ^ 16
    (true,
      { s1 with
        xkbCode := x.xkbCode
        keystate := x.keystate
        compose := x.compose
        width := w
        height := h
        deleteWindowAtom := x.deleteWindowAtom })

/-- Source `os_window_is_open`: `return state.connection;`, a pointer converted
to `bool`. -/
def os_window_is_open {K C : Type} (s : State K C) : Bool :=
  decide (s.connection ≠ 0)

/-- Source `os_destroy`: after the releases, `memset(&state, 0, sizeof(state))`.
`nullKeystate` and `nullCompose` are the `NULL` handles. -/
def os_destroy {K C : Type} (nullKeystate : K) (nullCompose : C) (_s : State K C) :
    State K C where
  connection := 0
  keystate := nullKeystate
  compose := nullCompose
  xkbCode := 0
  deleteWindowAtom := 0
  onQuit := false
  onFocus := false
  onResize := false
  onKey := false
  onText := false
  width := 0
  height := 0
  keyDown := fun _ => false
  mouseDown := fun _ => false
  mouseX := 0
  mouseY := 0

/-- A machine without a reachable X server: `xcb_connect` hands out its error
connection (a non-`NULL` pointer) and `xcb_connection_has_error` reports the
error. -/
def noDisplay : XServer Unit SampleCompose where
  connection := 1
  has_error := true
  xkbCode := 0
  keystate := ()
  compose := ⟨[], XKB_COMPOSE_NOTHING, 0⟩
  width_in_pixels := 0
  height_in_pixels := 0
  deleteWindowAtom := 0

/-- The module state at program start, which is also the state left by
`os_destroy`. -/
def closedState : State Unit SampleCompose :=
  os_destroy () ⟨[], XKB_COMPOSE_NOTHING, 0⟩ sampleState

/-- A request for an 800x600 window. -/
def sampleConfig : os_window_config :=
  { width := 800, height := 600, fullscreen := false, title := "LOVR" }

end OsLinux

namespace Desktop

/-! ## Vectors and matrices of `lib/maf.h` -/

/-- A `float[3]`: `x`, `y`, `z` are the elements 0, 1, 2. -/
structure Vec3 where
  x : ℚ
  y : ℚ
  z : ℚ
  deriving DecidableEq, Repr

/-- A `float[4]` quaternion. -/
structure Quat where
  x : ℚ
  y : ℚ
  z : ℚ
  w : ℚ
  deriving DecidableEq, Repr

/-- A `float[16]` matrix in column-major order: `m0 .. m15` are the elements
0 to 15. -/
structure Mat4 where
  m0 : ℚ
  m1 : ℚ
  m2 : ℚ
  m3 : ℚ
  m4 : ℚ
  m5 : ℚ
  m6 : ℚ
  m7 : ℚ
  m8 : ℚ
  m9 : ℚ
  m10 : ℚ
  m11 : ℚ
  m12 : ℚ
  m13 : ℚ
  m14 : ℚ
  m15 : ℚ
  deriving DecidableEq, Repr

/-- Modelled from the spec: `vec3_set` of `lib/maf.h` stores three components. -/
def vec3_set (x y z : ℚ) : Vec3 :=
  ⟨x, y, z⟩

/-- Modelled from the spec: `vec3_init` of `lib/maf.h` copies a vector. -/
def vec3_init (u : Vec3) : Vec3 :=
  ⟨u.x, u.y, u.z⟩

/-- Modelled from the spec: `vec3_scale` of `lib/maf.h` multiplies each
component by `s` ("decays toward zero by a fixed damping factor"). -/
def vec3_scale (v : Vec3) (s : ℚ) : Vec3 :=
  ⟨v.x * s, v.y * s, v.z * s⟩

/-- Modelled from the spec: `vec3_add` of `lib/maf.h` adds componentwise
("integrates position by velocity"). -/
def vec3_add (v u : Vec3) : Vec3 :=
  ⟨v.x + u.x, v.y + u.y, v.z + u.z⟩

/-- Modelled from the spec: `mat4_identity` of `lib/maf.h`, the identity
matrix. -/
def mat4_identity : Mat4 :=
  ⟨1, 0, 0, 0, 0, 1, 0, 0, 0, 0, 1, 0, 0, 0, 0, 1⟩

/-- Modelled from the spec: `mat4_translate` of `lib/maf.h` multiplies the
matrix by a translation on the right ("translate(floorOffset) ·
translate(position) · ..."). -/
def mat4_translate (m : Mat4) (x y z : ℚ) : Mat4 :=
  { m with
    m12 := m.m0 * x + m.m4 * y + m.m8 * z + m.m12
    m13 := m.m1 * x + m.m5 * y + m.m9 * z + m.m13
    m14 := m.m2 * x + m.m6 * y + m.m10 * z + m.m14
    m15 := m.m3 * x + m.m7 * y + m.m11 * z + m.m15 }

/-- Modelled from the spec: `mat4_transform` of `lib/maf.h` applies the matrix
to a point. -/
def mat4_transform (m : Mat4) (v : Vec3) : Vec3 :=
  ⟨v.x * m.m0 + v.y * m.m4 + v.z * m.m8 + m.m12,
   v.x * m.m1 + v.y * m.m5 + v.z * m.m9 + m.m13,
   v.x * m.m2 + v.y * m.m6 + v.z * m.m10 + m.m14⟩

/-- Modelled from the spec: `mat4_transformDirection` of `lib/maf.h` applies
the matrix to a direction, without its translation. -/
def mat4_transformDirection (m : Mat4) (v : Vec3) : Vec3 :=
  ⟨v.x * m.m0 + v.y * m.m4 + v.z * m.m8,
   v.x * m.m1 + v.y * m.m5 + v.z * m.m9,
   v.x * m.m2 + v.y * m.m6 + v.z * m.m10⟩

/-- The functions of `lib/maf.h` that go through `sinf`, `cosf` or `sqrtf`,
taken as parameters: `mat4_rotate m angle ax ay az` and `quat_fromMat4 m`. -/
structure Maf where
  mat4_rotate : Mat4 → ℚ → ℚ → ℚ → ℚ → Mat4
  quat_fromMat4 : Mat4 → Quat

/-- Modelled from the spec: the `MAX` macro of `util.h`. -/
def MAX (a b : ℚ) : ℚ :=
  if a > b then a else b

/-- Modelled from the spec: the `MIN` macro of `util.h`. -/
def MIN (a b : ℚ) : ℚ :=
  if a < b then a else b

/-- Modelled from the spec: the `CLAMP` macro of `util.h` ("clamps pitch to
±90°"). -/
def CLAMP (x min max : ℚ) : ℚ :=
  MAX min (MIN max x)

/-- The value of `(float) M_PI`: the single-precision number nearest to π,
`0x40490FDB`. -/
def M_PI_F : ℚ :=
  13176795 / 4194304

/-! ## Platform queries -/

/-- Modelled from the spec: the keys of `platform.h` that `update` reads. -/
inductive KeyCode where
  | KEY_W
  | KEY_A
  | KEY_S
  | KEY_D
  | KEY_Q
  | KEY_E
  | KEY_UP
  | KEY_DOWN
  | KEY_LEFT
  | KEY_RIGHT
  deriving DecidableEq, Repr

/-- Modelled from the spec: the mouse buttons of `platform.h`. -/
inductive MouseButton where
  | MOUSE_LEFT
  | MOUSE_RIGHT
  deriving DecidableEq, Repr

/-- Modelled from the spec: the mouse modes of `platform.h`. -/
inductive MouseMode where
  | MOUSE_MODE_NORMAL
  | MOUSE_MODE_GRABBED
  deriving DecidableEq, Repr

open KeyCode MouseButton MouseMode

/-- What the `lovrPlatform...` queries answer during one call of `update`:
`lovrPlatformIsKeyDown`, `lovrPlatformIsMouseDown`, `lovrPlatformGetWindowSize`
and `lovrPlatformGetMousePosition`. -/
structure Platform where
  isKeyDown : KeyCode → Bool
  isMouseDown : MouseButton → Bool
  windowWidth : Int
  windowHeight : Int
  mouseX : ℚ
  mouseY : ℚ

/-! ## The simulator driver -/

/-- The module-level `state` of `desktop.c`. -/
structure State where
  offset : ℚ
  clipNear : ℚ
  clipFar : ℚ
  position : Vec3
  velocity : Vec3
  localVelocity : Vec3
  angularVelocity : Vec3
  yaw : ℚ
  pitch : ℚ
  transform : Mat4
  prevCursorX : ℚ
  prevCursorY : ℚ
  deriving DecidableEq, Repr

/-- The all-zero `state`: static storage at program start, and what `destroy`
leaves behind. -/
def zeroed : State :=
  { offset := 0, clipNear := 0, clipFar := 0,
    position := ⟨0, 0, 0⟩, velocity := ⟨0, 0, 0⟩, localVelocity := ⟨0, 0, 0⟩,
    angularVelocity := ⟨0, 0, 0⟩, yaw := 0, pitch := 0,
    transform := ⟨0, 0, 0, 0, 0, 0, 0, 0, 0, 0, 0, 0, 0, 0, 0, 0⟩,
    prevCursorX := 0, prevCursorY := 0 }

/-- Source `init`: returns `true` and the new state.  `0.1f` is the
single-precision number `0x3DCCCCCD`. -/
def init (s : State) (offset : ℚ) (_msaa : Int) : Bool × State :=
  (true,
    { s with
      offset := offset
      clipNear := 13421773 / 134217728
      clipFar := 100
      transform := mat4_identity })

/-- Source `destroy`: `memset(&state, 0, sizeof(state))`. -/
def destroy (_s : State) : State :=
  zeroed

/-- Source `getPose`.  `position` and `orientation` are the output buffers:
`none` for a `NULL` pointer, otherwise the current content; the result carries
the returned flag and the buffers after the call. -/
def getPose (maf : Maf) (s : State) (path : String) (position : Option Vec3)
    (orientation : Option Quat) : Bool × Option Vec3 × Option Quat :=
  let head := decide (path = "head")
  let hand := decide (path = "hand/left") || decide (path = "hand/right")
  if !head && !hand then (false, position, orientation)
  else
    let position1 := position.map fun _ =>
      mat4_transform s.transform (vec3_set 0 0 (if hand then -(3 / 4) else 0))
    let orientation1 := orientation.map fun _ => maf.quat_fromMat4 s.transform
    (true, position1, orientation1)

/-- Source `update` on finite values: returns the new state and the mouse mode
passed to `lovrPlatformSetMouseMode`.  Where the code divides by zero (the left
button held with `dt = 0` or a window without width or height) the quotient
here is 0; `Desktop.Ieee.update` is the embedding that follows the code
there. -/
def update (maf : Maf) (p : Platform) (s : State) (dt : ℚ) : State × MouseMode :=
  let front := p.isKeyDown KEY_W || p.isKeyDown KEY_UP
  let back := p.isKeyDown KEY_S || p.isKeyDown KEY_DOWN
  let left := p.isKeyDown KEY_A || p.isKeyDown KEY_LEFT
  let right := p.isKeyDown KEY_D || p.isKeyDown KEY_RIGHT
  let up := p.isKeyDown KEY_Q
  let down := p.isKeyDown KEY_E
  let movespeed := 3 * dt
  let turnspeed := 3 * dt
  let damping := MAX (1 - 20 * dt) 0
  let r1 : State × MouseMode :=
    if p.isMouseDown MOUSE_LEFT then
      let width := p.windowWidth
      let height := p.windowHeight
      let mx := p.mouseX
      let my := p.mouseY
      let s0 : State :=
        if s.prevCursorX = -1 ∧ s.prevCursorY = -1 then
          { s with prevCursorX := mx, prevCursorY := my }
        else s
      let aspect := (width : ℚ) / (height : ℚ)
      let dx := (mx - s0.prevCursorX) / (width : ℚ)
      let dy := (my - s0.prevCursorY) / ((height : ℚ) * aspect)
      ({ s0 with
          angularVelocity := { s0.angularVelocity with x := dy / dt, y := dx / dt }
          prevCursorX := mx
          prevCursorY := my },
        MOUSE_MODE_GRABBED)
    else
      ({ s with
          angularVelocity := vec3_scale s.angularVelocity damping
          prevCursorX := -1
          prevCursorY := -1 },
        MOUSE_MODE_NORMAL)
  let s1 := r1.1
  -- Update velocity
  let localVelocity : Vec3 :=
    ⟨if left then -movespeed else (if right then movespeed else s1.localVelocity.x),
     if up then movespeed else (if down then -movespeed else s1.localVelocity.y),
     if front then -movespeed else (if back then movespeed else s1.localVelocity.z)⟩
  let velocity := mat4_transformDirection s1.transform (vec3_init localVelocity)
  let localVelocity1 := vec3_scale localVelocity damping
  -- Update position
  let position := vec3_add s1.position velocity
  -- Update orientation
  let pitch := CLAMP (s1.pitch - s1.angularVelocity.x * turnspeed) (-M_PI_F / 2) (M_PI_F / 2)
  let yaw := s1.yaw - s1.angularVelocity.y * turnspeed
  -- Update transform
  let t0 := mat4_identity
  let t1 := mat4_translate t0 0 s1.offset 0
  let t2 := mat4_translate t1 position.x position.y position.z
  let t3 := maf.mat4_rotate t2 yaw 0 1 0
  let t4 := maf.mat4_rotate t3 pitch 1 0 0
  ({ s1 with
      velocity := velocity
      localVelocity := localVelocity1
      position := position
      pitch := pitch
      yaw := yaw
      transform := t4 },
    r1.2)

/-- A run of `update` calls, one per frame, each with the platform answers and
the time step of its frame. -/
def updates (maf : Maf) (s : State) : List (Platform × ℚ) → State
  | [] => s
  | step :: rest => updates maf (update maf step.1 s step.2).1 rest

/-- No directional key is down and the button that `update` tests,
`MOUSE_LEFT`, is not held. -/
def Platform.idle (p : Platform) : Prop :=
  (∀ key : KeyCode, p.isKeyDown key = false) ∧ p.isMouseDown MOUSE_LEFT = false

/-- The rotation and orientation functions at rest: rotating by the angle 0
leaves a matrix unchanged and an unrotated transform has the identity
orientation.  They are exact while yaw and pitch are 0; the examples below
that turn the head do not read the transform. -/
def restMaf : Maf where
  mat4_rotate := fun m _ _ _ _ => m
  quat_fromMat4 := fun _ => ⟨0, 0, 0, 1⟩

/-- An 800x600 window with the cursor at its centre, only the keys of `keys`
down and no mouse button held. -/
def holding (keys : List KeyCode) : Platform where
  isKeyDown := fun key => decide (key ∈ keys)
  isMouseDown := fun _ => false
  windowWidth := 800
  windowHeight := 600
  mouseX := 400
  mouseY := 300

/-- Source `isDown`.  `down` is the content of the output buffer before the
call; the result carries the returned flag and the buffer after the call. -/
def isDown (p : Platform) (path : String) (down : Bool) : Bool × Bool :=
  if decide (path = "hand/left") || decide (path = "hand/right") then
    (true, p.isMouseDown MOUSE_RIGHT)
  else (false, down)

/-- An 800x600 window with no key down, the mouse buttons held as told and the
cursor at (`x`, `y`). -/
def pointing (left right : Bool) (x y : ℚ) : Platform where
  isKeyDown := fun _ => false
  isMouseDown := fun button =>
    match button with
    | MOUSE_LEFT => left
    | MOUSE_RIGHT => right
  windowWidth := 800
  windowHeight := 600
  mouseX := x
  mouseY := y

/-- A driver after `init(0, 4)` and one frame of 1/40 s without any input. -/
def restedState : State :=
  (update restMaf (holding []) (init zeroed 0 4).2 (1 / 40)).1

end Desktop

namespace Desktop.Ieee

open KeyCode MouseButton MouseMode

/-! ## The driver over floats with infinities and NaN

The same driver once more, over values that are a finite number, an infinity
or NaN.  Arithmetic on finite values is exact, as above; what a division by
zero or an operation on an infinity or NaN yields follows IEEE 754.  Zero has
no sign: a quotient of a nonzero number by zero takes the sign of the
numerator. -/

/-- A `float` or `double` value: finite, positive or negative infinity, or
NaN. -/
inductive Fl where
  | fin (q : ℚ)
  | pinf
  | ninf
  | nan
  deriving DecidableEq, Repr

open Fl

/-- Negation. -/
def Fl.neg : Fl → Fl
  | fin a => fin (-a)
  | pinf => ninf
  | ninf => pinf
  | nan => nan

/-- The infinity with the sign of `a` when `positive`, with the opposite sign
otherwise; NaN when `a` is zero. -/
def Fl.signedInf (a : ℚ) (positive : Bool) : Fl :=
  if a = 0 then nan else if decide (0 < a) = positive then pinf else ninf

/-- Addition: `inf + -inf` is NaN. -/
def Fl.add : Fl → Fl → Fl
  | nan, _ => nan
  | _, nan => nan
  | pinf, ninf => nan
  | ninf, pinf => nan
  | pinf, _ => pinf
  | _, pinf => pinf
  | ninf, _ => ninf
  | _, ninf => ninf
  | fin a, fin b => fin (a + b)

/-- Multiplication: `0 * inf` is NaN. -/
def Fl.mul : Fl → Fl → Fl
  | nan, _ => nan
  | _, nan => nan
  | fin a, fin b => fin (a * b)
  | fin a, pinf => Fl.signedInf a true
  | fin a, ninf => Fl.signedInf a false
  | pinf, fin b => Fl.signedInf b true
  | ninf, fin b => Fl.signedInf b false
  | pinf, pinf => pinf
  | ninf, ninf => pinf
  | pinf, ninf => ninf
  | ninf, pinf => ninf

/-- Division: `0 / 0` and `inf / inf` are NaN, a nonzero number over zero is
an infinity, a finite number over an infinity is zero. -/
def Fl.div : Fl → Fl → Fl
  | nan, _ => nan
  | _, nan => nan
  | fin a, fin b => if b = 0 then Fl.signedInf a true else fin (a / b)
  | fin _, pinf => fin 0
  | fin _, ninf => fin 0
  | pinf, fin b => if b < 0 then ninf else pinf
  | ninf, fin b => if b < 0 then pinf else ninf
  | pinf, pinf => nan
  | pinf, ninf => nan
  | ninf, pinf => nan
  | ninf, ninf => nan

instance : Neg Fl := ⟨Fl.neg⟩

instance : Add Fl := ⟨Fl.add⟩

instance : Sub Fl := ⟨fun a b => Fl.add a (Fl.neg b)⟩

instance : Mul Fl := ⟨Fl.mul⟩

instance : Div Fl := ⟨Fl.div⟩

/-- The C comparison `a < b`: false as soon as one side is NaN. -/
def Fl.lt : Fl → Fl → Bool
  | nan, _ => false
  | _, nan => false
  | fin a, fin b => decide (a < b)
  | fin _, pinf => true
  | fin _, ninf => false
  | pinf, _ => false
  | ninf, ninf => false
  | ninf, _ => true

/-- The C comparison `a == b`: false as soon as one side is NaN. -/
def Fl.eq : Fl → Fl → Bool
  | nan, _ => false
  | _, nan => false
  | a, b => decide (a = b)

/-- A `float[3]`. -/
structure Vec3 where
  x : Fl
  y : Fl
  z : Fl
  deriving DecidableEq, Repr

/-- A `float[16]` matrix in column-major order. -/
structure Mat4 where
  m0 : Fl
  m1 : Fl
  m2 : Fl
  m3 : Fl
  m4 : Fl
  m5 : Fl
  m6 : Fl
  m7 : Fl
  m8 : Fl
  m9 : Fl
  m10 : Fl
  m11 : Fl
  m12 : Fl
  m13 : Fl
  m14 : Fl
  m15 : Fl
  deriving DecidableEq, Repr

/-- Modelled from the spec: `vec3_init` of `lib/maf.h` copies a vector. -/
def vec3_init (u : Vec3) : Vec3 :=
  ⟨u.x, u.y, u.z⟩

/-- Modelled from the spec: `vec3_scale` of `lib/maf.h` multiplies each
component by `s`. -/
def vec3_scale (v : Vec3) (s : Fl) : Vec3 :=
  ⟨v.x * s, v.y * s, v.z * s⟩

/-- Modelled from the spec: `vec3_add` of `lib/maf.h` adds componentwise. -/
def vec3_add (v u : Vec3) : Vec3 :=
  ⟨v.x + u.x, v.y + u.y, v.z + u.z⟩

/-- Modelled from the spec: `mat4_identity` of `lib/maf.h`. -/
def mat4_identity : Mat4 :=
  ⟨fin 1, fin 0, fin 0, fin 0, fin 0, fin 1, fin 0, fin 0,
   fin 0, fin 0, fin 1, fin 0, fin 0, fin 0, fin 0, fin 1⟩

/-- Modelled from the spec: `mat4_translate` of `lib/maf.h`. -/
def mat4_translate (m : Mat4) (x y z : Fl) : Mat4 :=
  { m with
    m12 := m.m0 * x + m.m4 * y + m.m8 * z + m.m12
    m13 := m.m1 * x + m.m5 * y + m.m9 * z + m.m13
    m14 := m.m2 * x + m.m6 * y + m.m10 * z + m.m14
    m15 := m.m3 * x + m.m7 * y + m.m11 * z + m.m15 }

/-- Modelled from the spec: `mat4_transformDirection` of `lib/maf.h`. -/
def mat4_transformDirection (m : Mat4) (v : Vec3) : Vec3 :=
  ⟨v.x * m.m0 + v.y * m.m4 + v.z * m.m8,
   v.x * m.m1 + v.y * m.m5 + v.z * m.m9,
   v.x * m.m2 + v.y * m.m6 + v.z * m.m10⟩

/-- The rotation of `lib/maf.h`, which goes through `sinf` and `cosf`, taken as
a parameter: `mat4_rotate m angle ax ay az`. -/
structure Maf where
  mat4_rotate : Mat4 → Fl → Fl → Fl → Fl → Mat4

/-- Modelled from the spec: the `MAX` macro of `util.h`, `a > b ? a : b`. -/
def MAX (a b : Fl) : Fl :=
  if Fl.lt b a then a else b

/-- Modelled from the spec: the `MIN` macro of `util.h`, `a < b ? a : b`. -/
def MIN (a b : Fl) : Fl :=
  if Fl.lt a b then a else b

/-- Modelled from the spec: the `CLAMP` macro of `util.h`,
`MAX(min, MIN(max, x))`. -/
def CLAMP (x min max : Fl) : Fl :=
  MAX min (MIN max x)

/-- The module-level `state` of `desktop.c`. -/
structure State where
  offset : Fl
  clipNear : Fl
  clipFar : Fl
  position : Vec3
  velocity : Vec3
  localVelocity : Vec3
  angularVelocity : Vec3
  yaw : Fl
  pitch : Fl
  transform : Mat4
  prevCursorX : Fl
  prevCursorY : Fl
  deriving DecidableEq, Repr

/-- The all-zero `state`. -/
def zeroed : State :=
  { offset := fin 0, clipNear := fin 0, clipFar := fin 0,
    position := ⟨fin 0, fin 0, fin 0⟩, velocity := ⟨fin 0, fin 0, fin 0⟩,
    localVelocity := ⟨fin 0, fin 0, fin 0⟩, angularVelocity := ⟨fin 0, fin 0, fin 0⟩,
    yaw := fin 0, pitch := fin 0,
    transform := ⟨fin 0, fin 0, fin 0, fin 0, fin 0, fin 0, fin 0, fin 0,
      fin 0, fin 0, fin 0, fin 0, fin 0, fin 0, fin 0, fin 0⟩,
    prevCursorX := fin 0, prevCursorY := fin 0 }

/-- Source `init`. -/
def init (s : State) (offset : Fl) (_msaa : Int) : Bool × State :=
  (true,
    { s with
      offset := offset
      clipNear := fin (13421773 / 134217728)
      clipFar := fin 100
      transform := mat4_identity })

/-- Source `update`, with the cursor position and the window size of the
platform taken as finite numbers. -/
def update (maf : Maf) (p : Platform) (s : State) (dt : Fl) : State × MouseMode :=
  let front := p.isKeyDown KEY_W || p.isKeyDown KEY_UP
  let back := p.isKeyDown KEY_S || p.isKeyDown KEY_DOWN
  let left := p.isKeyDown KEY_A || p.isKeyDown KEY_LEFT
  let right := p.isKeyDown KEY_D || p.isKeyDown KEY_RIGHT
  let up := p.isKeyDown KEY_Q
  let down := p.isKeyDown KEY_E
  let movespeed := fin 3 * dt
  let turnspeed := fin 3 * dt
  let damping := MAX (fin 1 - fin 20 * dt) (fin 0)
  let r1 : State × MouseMode :=
    if p.isMouseDown MOUSE_LEFT then
      let width : Fl := fin (p.windowWidth : ℚ)
      let height : Fl := fin (p.windowHeight : ℚ)
      let mx : Fl := fin p.mouseX
      let my : Fl := fin p.mouseY
      let s0 : State :=
        if Fl.eq s.prevCursorX (fin (-1)) && Fl.eq s.prevCursorY (fin (-1)) then
          { s with prevCursorX := mx, prevCursorY := my }
        else s
      let aspect := width / height
      let dx := (mx - s0.prevCursorX) / width
      let dy := (my - s0.prevCursorY) / (height * aspect)
      ({ s0 with
          angularVelocity := { s0.angularVelocity with x := dy / dt, y := dx / dt }
          prevCursorX := mx
          prevCursorY := my },
        MOUSE_MODE_GRABBED)
    else
      ({ s with
          angularVelocity := vec3_scale s.angularVelocity damping
          prevCursorX := fin (-1)
          prevCursorY := fin (-1) },
        MOUSE_MODE_NORMAL)
  let s1 := r1.1
  -- Update velocity
  let localVelocity : Vec3 :=
    ⟨if left then -movespeed else (if right then movespeed else s1.localVelocity.x),
     if up then movespeed else (if down then -movespeed else s1.localVelocity.y),
     if front then -movespeed else (if back then movespeed else s1.localVelocity.z)⟩
  let velocity := mat4_transformDirection s1.transform (vec3_init localVelocity)
  let localVelocity1 := vec3_scale localVelocity damping
  -- Update position
  let position := vec3_add s1.position velocity
  -- Update orientation
  let pitch :=
    CLAMP (s1.pitch - s1.angularVelocity.x * turnspeed) (-fin M_PI_F / fin 2) (fin M_PI_F / fin 2)
  let yaw := s1.yaw - s1.angularVelocity.y * turnspeed
  -- Update transform
  let t0 := mat4_identity
  let t1 := mat4_translate t0 (fin 0) s1.offset (fin 0)
  let t2 := mat4_translate t1 position.x position.y position.z
  let t3 := maf.mat4_rotate t2 yaw (fin 0) (fin 1) (fin 0)
  let t4 := maf.mat4_rotate t3 pitch (fin 1) (fin 0) (fin 0)
  ({ s1 with
      velocity := velocity
      localVelocity := localVelocity1
      position := position
      pitch := pitch
      yaw := yaw
      transform := t4 },
    r1.2)

/-- A run of `update` calls, one per frame. -/
def updates (maf : Maf) (s : State) : List (Platform × Fl) → State
  | [] => s
  | step :: rest => updates maf (update maf step.1 s step.2).1 rest

/-- A vector of finite components. -/
def embedVec3 (v : Desktop.Vec3) : Vec3 :=
  ⟨fin v.x, fin v.y, fin v.z⟩

/-- A matrix of finite elements. -/
def embedMat4 (m : Desktop.Mat4) : Mat4 :=
  ⟨fin m.m0, fin m.m1, fin m.m2, fin m.m3, fin m.m4, fin m.m5, fin m.m6, fin m.m7,
   fin m.m8, fin m.m9, fin m.m10, fin m.m11, fin m.m12, fin m.m13, fin m.m14, fin m.m15⟩

/-- A driver state whose fields are all finite. -/
def embedState (s : Desktop.State) : State :=
  { offset := fin s.offset, clipNear := fin s.clipNear, clipFar := fin s.clipFar,
    position := embedVec3 s.position, velocity := embedVec3 s.velocity,
    localVelocity := embedVec3 s.localVelocity,
    angularVelocity := embedVec3 s.angularVelocity,
    yaw := fin s.yaw, pitch := fin s.pitch, transform := embedMat4 s.transform,
    prevCursorX := fin s.prevCursorX, prevCursorY := fin s.prevCursorY }

/-- The rotation at rest: rotating by the angle 0 leaves a matrix unchanged.
The examples below do not read the transform. -/
def restMaf : Maf where
  mat4_rotate := fun m _ _ _ _ => m

/-- A 1024x1024 window with no key down, the left button held as told and the
cursor at (`x`, `y`). -/
def squarePointing (left : Bool) (x y : ℚ) : Platform where
  isKeyDown := fun _ => false
  isMouseDown := fun button =>
    match button with
    | MOUSE_LEFT => left
    | MOUSE_RIGHT => false
  windowWidth := 1024
  windowHeight := 1024
  mouseX := x
  mouseY := y

/-- A driver after `init(0, 4)` and one frame of 1/64 s without any input. -/
def restedState : State :=
  (update restMaf (squarePointing false 512 1024) (init zeroed (fin 0) 4).2 (fin (1 / 64))).1

end Desktop.Ieee

/-! # Properties -/

namespace OsLinux
open os_key os_mouse_button xkb_compose_status

/-! ## `convertKey` -/

set_option maxRecDepth 1000000 in
/-- Every 8-bit keycode, checked one by one: the result is a key or the
sentinel, agrees with every row of the table, is the sentinel when no row
matches, and a recognized keycode is recovered from its key. -/
theorem convertKey_byte (keycode : Fin 256) :
    (convertKey keycode.val).val ≤ OS_KEY_COUNT.val ∧
    (∀ row ∈ keyTable, (keycode.val : Int) - 8 = row.1 →
      convertKey keycode.val = row.2 ∧ row.2.val < OS_KEY_COUNT.val) ∧
    (isRecognized keycode.val = false → convertKey keycode.val = OS_KEY_COUNT) ∧
    (isRecognized keycode.val = true → keycodeOf (convertKey keycode.val) = keycode.val) := by
  revert keycode
  decide

theorem isRecognized_iff (keycode : Nat) :
    isRecognized keycode = true ↔ ∃ row ∈ keyTable, (keycode : Int) - 8 = row.1 := by
  unfold isRecognized
  rw [List.any_eq_true]
  constructor
  · rintro ⟨row, hrow, h⟩
    exact ⟨row, hrow, (of_decide_eq_true h).symm⟩
  · rintro ⟨row, hrow, h⟩
    exact ⟨row, hrow, decide_eq_true h.symm⟩

/-- C1: for every 8-bit keycode `convertKey` returns a key below `OS_KEY_COUNT`
or the sentinel `OS_KEY_COUNT`; a keycode whose value minus 8 is a scancode of
the table maps to the key written next to it (a key below `OS_KEY_COUNT`); two
distinct recognized keycodes map to distinct keys; every other keycode, and so
every keycode below 8, maps to the sentinel. -/
theorem convertKey_table_injective_sentinel :
    (∀ keycode : Nat, keycode < 256 →
      (convertKey keycode).val < OS_KEY_COUNT.val ∨ convertKey keycode = OS_KEY_COUNT) ∧
    (∀ keycode : Nat, keycode < 256 → ∀ row ∈ keyTable, (keycode : Int) - 8 = row.1 →
      convertKey keycode = row.2 ∧ row.2.val < OS_KEY_COUNT.val) ∧
    (∀ a b : Nat, a < 256 → b < 256 → a ≠ b →
      (∃ row ∈ keyTable, (a : Int) - 8 = row.1) → (∃ row ∈ keyTable, (b : Int) - 8 = row.1) →
      convertKey a ≠ convertKey b) ∧
    (∀ keycode : Nat, keycode < 256 → (¬ ∃ row ∈ keyTable, (keycode : Int) - 8 = row.1) →
      convertKey keycode = OS_KEY_COUNT) ∧
    (∀ keycode : Nat, keycode < 8 → convertKey keycode = OS_KEY_COUNT ∧
      ¬ ∃ row ∈ keyTable, (keycode : Int) - 8 = row.1) := by
  have other : ∀ keycode : Nat, keycode < 256 →
      (¬ ∃ row ∈ keyTable, (keycode : Int) - 8 = row.1) → convertKey keycode = OS_KEY_COUNT := by
    intro keycode hlt hno
    apply (convertKey_byte ⟨keycode, hlt⟩).2.2.1
    rw [← Bool.not_eq_true, isRecognized_iff]
    exact hno
  refine ⟨?_, ?_, ?_, other, ?_⟩
  · intro keycode hlt
    by_cases hk : convertKey keycode = OS_KEY_COUNT
    · exact Or.inr hk
    · left
      have hle := (convertKey_byte ⟨keycode, hlt⟩).1
      refine lt_of_le_of_ne hle ?_
      intro hval
      apply hk
      generalize convertKey keycode = key at hval
      cases key <;> first | rfl | exact absurd hval (by decide)
  · intro keycode hlt row hrow hcode
    exact (convertKey_byte ⟨keycode, hlt⟩).2.1 row hrow hcode
  · intro a b ha hb hab hra hrb heq
    have h1 := (convertKey_byte ⟨a, ha⟩).2.2.2 ((isRecognized_iff a).2 hra)
    have h2 := (convertKey_byte ⟨b, hb⟩).2.2.2 ((isRecognized_iff b).2 hrb)
    simp only at h1 h2
    rw [heq] at h1
    exact hab (h1.symm.trans h2)
  · intro keycode hlt
    have hno : ¬ ∃ row ∈ keyTable, (keycode : Int) - 8 = row.1 := by
      rintro ⟨row, hrow, h⟩
      have hpos : ∀ r ∈ keyTable, (0 : Int) ≤ r.1 := by decide
      have := hpos row hrow
      omega
    exact ⟨other keycode (by omega) hno, hno⟩

/-- C1 at concrete keycodes: 25 is `W`, 25 and 38 differ, 3 and 200 are not
recognized. -/
theorem convertKey_table_injective_sentinel_witness :
    (convertKey 25 = OS_KEY_W ∧ OS_KEY_W.val < OS_KEY_COUNT.val) ∧
    convertKey 25 ≠ convertKey 38 ∧
    convertKey 200 = OS_KEY_COUNT ∧
    convertKey 3 = OS_KEY_COUNT :=
  ⟨convertKey_table_injective_sentinel.2.1 25 (by decide) (KEY_W, OS_KEY_W) (by decide)
      (by decide),
    convertKey_table_injective_sentinel.2.2.1 25 38 (by decide) (by decide) (by decide)
      ⟨(KEY_W, OS_KEY_W), by decide, by decide⟩ ⟨(KEY_A, OS_KEY_A), by decide, by decide⟩,
    convertKey_table_injective_sentinel.2.2.2.1 200 (by decide) (by decide),
    (convertKey_table_injective_sentinel.2.2.2.2 3 (by decide)).1⟩

/-! ## Key state -/

section KeyState
variable {K C : Type} (xkb : Xkb K C)

theorem textInput_keyDown (s : State K C) (keycode : Nat) :
    (textInput xkb s keycode).1.keyDown = s.keyDown := by
  unfold textInput
  dsimp only
  split_ifs <;> rfl

theorem keyEvent_keyDown (s : State K C) (event : Event) (k : os_key)
    (hk : k.val < OS_KEY_COUNT.val) :
    (keyEvent xkb s event).1.keyDown k =
      if convertKey event.detail = k then decide (event.type = XCB_KEY_PRESS)
      else s.keyDown k := by
  unfold keyEvent
  dsimp only
  by_cases hkey : convertKey event.detail = k
  · rw [if_pos hkey, hkey, if_pos hk]
    split_ifs <;> simp [textInput_keyDown]
  · rw [if_neg hkey]
    split_ifs <;> simp [textInput_keyDown, Function.update_noteq (Ne.symm hkey)]

theorem os_poll_events_body_keyDown (s : State K C) (event : Event) (k : os_key)
    (hk : k.val < OS_KEY_COUNT.val) :
    (os_poll_events_body xkb s event).1.keyDown k =
      if event.isKeyOf k then decide (event.type = XCB_KEY_PRESS) else s.keyDown k := by
  by_cases htype : event.type = XCB_KEY_PRESS ∨ event.type = XCB_KEY_RELEASE
  · have hbody : os_poll_events_body xkb s event = keyEvent xkb s event := by
      unfold os_poll_events_body
      dsimp only
      rw [if_neg, if_neg, if_pos htype]
      · rcases htype with h | h <;> rw [h] <;> decide
      · rcases htype with h | h <;> rw [h] <;> decide
    rw [hbody, keyEvent_keyDown xkb s event k hk]
    simp [Event.isKeyOf, htype]
  · have hnot : event.isKeyOf k = false := by
      simp [Event.isKeyOf, htype]
    rw [hnot, if_neg Bool.false_ne_true]
    unfold os_poll_events_body
    dsimp only
    rw [if_neg htype]
    split_ifs <;> rfl

theorem os_poll_events_loop_keyDown (queue : List Event) (s : State K C) (k : os_key)
    (hk : k.val < OS_KEY_COUNT.val) :
    (os_poll_events_loop xkb s queue).1.keyDown k =
      (lastKeyEvent k queue).getD (s.keyDown k) := by
  induction queue generalizing s with
  | nil => rfl
  | cons event rest ih =>
    simp only [os_poll_events_loop, lastKeyEvent]
    rw [ih, os_poll_events_body_keyDown xkb s event k hk]
    cases lastKeyEvent k rest with
    | some pressed => rfl
    | none => by_cases h : event.isKeyOf k = true <;> simp [h]

/-- C2: with a connection, after `os_poll_events` has processed any sequence of
events, the entry of a key `k` below `OS_KEY_COUNT` is the kind (press or not)
of the last key event of the sequence whose keycode converts to `k`, and its
initial value when there is no such event; a press followed by a release of
the same key leaves it false, and a release on a false entry leaves it
false. -/
theorem keyDown_reflects_last_event (s : State K C) (k : os_key)
    (hconn : s.connection ≠ 0) (hk : k.val < OS_KEY_COUNT.val) :
    (∀ queue : List Event,
      (∀ pressed, lastKeyEvent k queue = some pressed →
        os_is_key_down (os_poll_events xkb s queue).1 k = pressed) ∧
      (lastKeyEvent k queue = none →
        os_is_key_down (os_poll_events xkb s queue).1 k = os_is_key_down s k)) ∧
    (∀ press release : Event, press.type = XCB_KEY_PRESS → release.type = XCB_KEY_RELEASE →
      convertKey press.detail = k → convertKey release.detail = k →
      os_is_key_down (os_poll_events xkb s [press, release]).1 k = false) ∧
    (∀ release : Event, release.type = XCB_KEY_RELEASE → convertKey release.detail = k →
      os_is_key_down s k = false →
      os_is_key_down (os_poll_events xkb s [release]).1 k = false) := by
  have hpoll : ∀ queue : List Event,
      os_is_key_down (os_poll_events xkb s queue).1 k =
        (lastKeyEvent k queue).getD (s.keyDown k) := by
    intro queue
    unfold os_poll_events os_is_key_down
    rw [if_neg hconn]
    exact os_poll_events_loop_keyDown xkb queue s k hk
  have hrel : ∀ release : Event, release.type = XCB_KEY_RELEASE →
      convertKey release.detail = k → ∀ rest : List Event, lastKeyEvent k rest = none →
      lastKeyEvent k (release :: rest) = some false := by
    intro release htype hkey rest hrest
    have hne : ¬ XCB_KEY_RELEASE = XCB_KEY_PRESS := by decide
    simp [lastKeyEvent, hrest, Event.isKeyOf, htype, hkey, hne]
  refine ⟨?_, ?_, ?_⟩
  · intro queue
    constructor
    · intro pressed hlast
      rw [hpoll, hlast]
      rfl
    · intro hlast
      rw [hpoll, hlast]
      rfl
  · intro press release _ hr _ hkr
    have hlast : lastKeyEvent k [press, release] = some false := by
      have := hrel release hr hkr [] rfl
      simp only [lastKeyEvent] at this ⊢
      rw [this]
    rw [hpoll, hlast]
    rfl
  · intro release hr hkr _
    rw [hpoll, hrel release hr hkr [] rfl]
    rfl

end KeyState

/-- C2 on the example window: `W` pressed, released and pressed again is down,
`W` pressed and released is up, and `A` is untouched by events for `W`. -/
theorem keyDown_reflects_last_event_witness :
    os_is_key_down (os_poll_events sampleXkb sampleState
      [pressOf 25, releaseOf 25, pressOf 25]).1 OS_KEY_W = true ∧
    os_is_key_down (os_poll_events sampleXkb sampleState
      [pressOf 25, releaseOf 25]).1 OS_KEY_W = false ∧
    os_is_key_down (os_poll_events sampleXkb sampleState [releaseOf 25]).1 OS_KEY_W = false :=
  have h := keyDown_reflects_last_event sampleXkb sampleState OS_KEY_W (by decide) (by decide)
  ⟨(h.1 [pressOf 25, releaseOf 25, pressOf 25]).1 true (by decide),
    h.2.1 (pressOf 25) (releaseOf 25) (by decide) (by decide) (by decide) (by decide),
    h.2.2 (releaseOf 25) (by decide) (by decide) rfl⟩

/-! ## Window size -/

section Resize
variable {K C : Type} (xkb : Xkb K C)

theorem os_poll_events_body_configure (s : State K C) (event : Event)
    (htype : event.type = XCB_CONFIGURE_NOTIFY) :
    os_poll_events_body xkb s event =
      if event.width = s.width ∧ event.height = s.height then (s, [])
      else ({ s with width := event.width, height := event.height },
        if s.onResize then [Call.onResize event.width event.height] else []) := by
  have h1 : ¬ event.type = XCB_CLIENT_MESSAGE := by rw [htype]; decide
  unfold os_poll_events_body
  dsimp only
  rw [if_neg h1, if_pos htype]
  by_cases hsame : event.width = s.width ∧ event.height = s.height
  · rw [if_pos hsame, if_neg]
    rw [hsame.1, hsame.2]
    simp
  · rw [if_neg hsame, if_pos]
    by_contra hne
    exact hsame ⟨not_not.1 fun h => hne (Or.inl h), not_not.1 fun h => hne (Or.inr h)⟩

theorem os_poll_events_loop_configure (queue : List Event) (s : State K C)
    (hcb : s.onResize = true) (hall : ∀ event ∈ queue, event.type = XCB_CONFIGURE_NOTIFY) :
    (os_poll_events_loop xkb s queue).2 =
      (sizeChanges (s.width, s.height) (queue.map fun event => (event.width, event.height))).map
        fun size => Call.onResize size.1 size.2 := by
  induction queue generalizing s with
  | nil => rfl
  | cons event rest ih =>
    have htype := hall event (List.mem_cons_self _ _)
    have hrest : ∀ e ∈ rest, e.type = XCB_CONFIGURE_NOTIFY :=
      fun e he => hall e (List.mem_cons_of_mem _ he)
    simp only [os_poll_events_loop, List.map_cons, sizeChanges]
    rw [os_poll_events_body_configure xkb s event htype]
    by_cases hsame : event.width = s.width ∧ event.height = s.height
    · have heq : (event.width, event.height) = (s.width, s.height) := by
        rw [hsame.1, hsame.2]
      rw [if_pos hsame, if_pos heq, ih s hcb hrest]
      rfl
    · have hne : ¬ (event.width, event.height) = (s.width, s.height) := by
        simpa [Prod.ext_iff] using hsame
      rw [if_neg hsame, if_neg hne]
      dsimp only
      rw [ih { s with width := event.width, height := event.height } hcb hrest, hcb]
      rfl

/-- C3: with a connection and a resize callback registered, a configure-notify
event whose width and height both equal the cached ones leaves the state as it
was and invokes nothing; one where either differs stores the event's size and
invokes the resize callback exactly once, with the new width and height.  Over
any sequence of such events the resize invocations are exactly the sizes that
differ from the size cached before them. -/
theorem resize_once_per_size_change (s : State K C)
    (hconn : s.connection ≠ 0) (hcb : s.onResize = true) :
    (∀ event : Event, event.type = XCB_CONFIGURE_NOTIFY →
      (event.width = s.width ∧ event.height = s.height →
        os_poll_events xkb s [event] = (s, [])) ∧
      (¬ (event.width = s.width ∧ event.height = s.height) →
        os_poll_events xkb s [event] =
          ({ s with width := event.width, height := event.height },
            [Call.onResize event.width event.height]))) ∧
    (∀ queue : List Event, (∀ event ∈ queue, event.type = XCB_CONFIGURE_NOTIFY) →
      (os_poll_events xkb s queue).2 =
        (sizeChanges (s.width, s.height)
          (queue.map fun event => (event.width, event.height))).map
          fun size => Call.onResize size.1 size.2) := by
  constructor
  · intro event htype
    have hone : os_poll_events xkb s [event] =
        ((os_poll_events_body xkb s event).1, (os_poll_events_body xkb s event).2) := by
      unfold os_poll_events
      rw [if_neg hconn]
      simp [os_poll_events_loop]
    rw [hone, os_poll_events_body_configure xkb s event htype]
    constructor
    · intro hsame
      rw [if_pos hsame]
    · intro hdiff
      rw [if_neg hdiff, hcb]
      rfl
  · intro queue hall
    unfold os_poll_events
    rw [if_neg hconn]
    exact os_poll_events_loop_configure xkb queue s hcb hall

end Resize

/-- C3 on the example 800x600 window: a configure-notify for 800x600 invokes
nothing, one for 1024x768 invokes the callback once, and of the sizes 800x600,
1024x768, 1024x768, 800x600 only the second and the fourth are reported. -/
theorem resize_once_per_size_change_witness :
    os_poll_events sampleXkb sampleState [configureOf 800 600] = (sampleState, []) ∧
    (os_poll_events sampleXkb sampleState [configureOf 1024 768]).2 =
      [Call.onResize 1024 768] ∧
    (os_poll_events sampleXkb sampleState [configureOf 800 600, configureOf 1024 768,
      configureOf 1024 768, configureOf 800 600]).2 =
      [Call.onResize 1024 768, Call.onResize 800 600] :=
  have h := resize_once_per_size_change sampleXkb sampleState (by decide) rfl
  ⟨(h.1 (configureOf 800 600) (by decide)).1 ⟨rfl, rfl⟩,
    congrArg Prod.snd ((h.1 (configureOf 1024 768) (by decide)).2 (by decide)),
    (h.2 [configureOf 800 600, configureOf 1024 768, configureOf 1024 768,
      configureOf 800 600] (by decide)).trans (by decide)⟩

/-! ## Text input -/

section Text
variable {K C : Type} (xkb : Xkb K C)

theorem os_poll_events_body_key (s : State K C) (event : Event)
    (htype : event.type = XCB_KEY_PRESS ∨ event.type = XCB_KEY_RELEASE) :
    os_poll_events_body xkb s event = keyEvent xkb s event := by
  unfold os_poll_events_body
  dsimp only
  rw [if_neg, if_neg, if_pos htype]
  · rcases htype with h | h <;> rw [h] <;> decide
  · rcases htype with h | h <;> rw [h] <;> decide

theorem textCalls_append (xs ys : List Call) :
    textCalls (xs ++ ys) = textCalls xs ++ textCalls ys := by
  induction xs with
  | nil => rfl
  | cons x rest ih => cases x <;> simp [textCalls, ih]

theorem textInput_keyDown_irrelevant (s : State K C) (down : os_key → Bool) (keycode : Nat) :
    (textInput xkb { s with keyDown := down } keycode).2 = (textInput xkb s keycode).2 ∧
    (textInput xkb { s with keyDown := down } keycode).1.compose =
      (textInput xkb s keycode).1.compose := by
  unfold textInput
  dsimp only
  split_ifs <;> exact ⟨rfl, rfl⟩

theorem keyEvent_press (s : State K C) (event : Event)
    (htype : event.type = XCB_KEY_PRESS) (htext : s.onText = true) :
    textCalls (keyEvent xkb s event).2 = textCalls (textInput xkb s event.detail).2 ∧
    (keyEvent xkb s event).1.compose = (textInput xkb s event.detail).1.compose := by
  unfold keyEvent
  dsimp only
  by_cases hkey : (convertKey event.detail).val < OS_KEY_COUNT.val
  · rw [if_pos hkey, if_pos ⟨htype, htext⟩]
    dsimp only
    obtain ⟨hcalls, hcompose⟩ := textInput_keyDown_irrelevant xkb s
      (Function.update s.keyDown (convertKey event.detail) (decide (event.type = XCB_KEY_PRESS)))
      event.detail
    rw [textCalls_append, hcalls, hcompose]
    refine ⟨?_, rfl⟩
    by_cases hk : s.onKey = true
    · rw [if_pos hk]; rfl
    · rw [if_neg hk]; rfl
  · rw [if_neg hkey, if_pos ⟨htype, htext⟩]
    exact ⟨by rw [textCalls_append]; rfl, rfl⟩

theorem keyEvent_release (s : State K C) (event : Event)
    (htype : event.type = XCB_KEY_RELEASE) :
    textCalls (keyEvent xkb s event).2 = [] := by
  have hne : ¬ event.type = XCB_KEY_PRESS := by rw [htype]; decide
  unfold keyEvent
  dsimp only
  simp only [hne, false_and, if_false]
  split_ifs <;> rfl

/-- C4: when a key-press event is processed with a text callback registered
and the compose engine, fed the key's keysym, reports `composed`, the text
callback is invoked exactly once, with the codepoint of the composed keysym,
and the compose state is reset; when it reports `cancelled`, the text callback
is not invoked and the compose state is reset.  A key-release event never
invokes the text callback. -/
theorem text_on_composed_none_on_cancelled (s : State K C) (event : Event) :
    (event.type = XCB_KEY_PRESS → s.onText = true →
      xkb.xkb_compose_state_get_status (xkb.xkb_compose_state_feed s.compose
        (xkb.xkb_state_key_get_one_sym s.keystate event.detail)) = XKB_COMPOSE_COMPOSED →
      textCalls (os_poll_events_body xkb s event).2 =
        [xkb.xkb_keysym_to_utf32 (xkb.xkb_compose_state_get_one_sym
          (xkb.xkb_compose_state_feed s.compose
            (xkb.xkb_state_key_get_one_sym s.keystate event.detail)))] ∧
      (os_poll_events_body xkb s event).1.compose =
        xkb.xkb_compose_state_reset (xkb.xkb_compose_state_feed s.compose
          (xkb.xkb_state_key_get_one_sym s.keystate event.detail))) ∧
    (event.type = XCB_KEY_PRESS → s.onText = true →
      xkb.xkb_compose_state_get_status (xkb.xkb_compose_state_feed s.compose
        (xkb.xkb_state_key_get_one_sym s.keystate event.detail)) = XKB_COMPOSE_CANCELLED →
      textCalls (os_poll_events_body xkb s event).2 = [] ∧
      (os_poll_events_body xkb s event).1.compose =
        xkb.xkb_compose_state_reset (xkb.xkb_compose_state_feed s.compose
          (xkb.xkb_state_key_get_one_sym s.keystate event.detail))) ∧
    (event.type = XCB_KEY_RELEASE → textCalls (os_poll_events_body xkb s event).2 = []) := by
  refine ⟨?_, ?_, ?_⟩
  · intro htype htext hstatus
    rw [os_poll_events_body_key xkb s event (Or.inl htype)]
    obtain ⟨hcalls, hcompose⟩ := keyEvent_press xkb s event htype htext
    rw [hcalls, hcompose]
    unfold textInput
    dsimp only
    rw [if_pos hstatus]
    exact ⟨rfl, rfl⟩
  · intro htype htext hstatus
    rw [os_poll_events_body_key xkb s event (Or.inl htype)]
    obtain ⟨hcalls, hcompose⟩ := keyEvent_press xkb s event htype htext
    rw [hcalls, hcompose]
    unfold textInput
    dsimp only
    rw [if_neg (by rw [hstatus]; decide), if_pos hstatus]
    exact ⟨rfl, rfl⟩
  · intro htype
    rw [os_poll_events_body_key xkb s event (Or.inr htype)]
    exact keyEvent_release xkb s event htype

end Text

/-- C4 on the example keyboard, in the middle of `<Multi_key> <apostrophe>`:
pressing `e` completes the sequence and emits U+00E9 once, pressing the
apostrophe again cancels it and emits nothing, and releasing `e` emits
nothing; the compose state is reset in the first two cases. -/
theorem text_on_composed_none_on_cancelled_witness :
    (textCalls (os_poll_events_body sampleXkb sampleComposing (pressOf 26)).2 = [0xe9] ∧
      (os_poll_events_body sampleXkb sampleComposing (pressOf 26)).1.compose =
        ⟨[], XKB_COMPOSE_NOTHING, 0⟩) ∧
    (textCalls (os_poll_events_body sampleXkb sampleComposing (pressOf 48)).2 = [] ∧
      (os_poll_events_body sampleXkb sampleComposing (pressOf 48)).1.compose =
        ⟨[], XKB_COMPOSE_NOTHING, 0⟩) ∧
    textCalls (os_poll_events_body sampleXkb sampleComposing (releaseOf 26)).2 = [] :=
  ⟨(text_on_composed_none_on_cancelled sampleXkb sampleComposing (pressOf 26)).1
      (by decide) rfl (by decide),
    (text_on_composed_none_on_cancelled sampleXkb sampleComposing (pressOf 48)).2.1
      (by decide) rfl (by decide),
    (text_on_composed_none_on_cancelled sampleXkb sampleComposing (releaseOf 26)).2.2
      (by decide)⟩

/-- Whenever the engine reports `composing` after the keysym of a key press is
fed, the text callback is invoked once, with the codepoint of the key itself. -/
theorem text_call_while_composing {K C : Type} (xkb : Xkb K C) (s : State K C) (event : Event)
    (htype : event.type = XCB_KEY_PRESS) (htext : s.onText = true)
    (hstatus : xkb.xkb_compose_state_get_status (xkb.xkb_compose_state_feed s.compose
      (xkb.xkb_state_key_get_one_sym s.keystate event.detail)) = XKB_COMPOSE_COMPOSING) :
    textCalls (os_poll_events_body xkb s event).2 =
      [xkb.xkb_state_key_get_utf32 s.keystate event.detail] := by
  rw [os_poll_events_body_key xkb s event (Or.inl htype),
    (keyEvent_press xkb s event htype htext).1]
  unfold textInput
  dsimp only
  rw [if_neg (by rw [hstatus]; decide), if_neg (by rw [hstatus]; decide)]
  rfl

/-- C5 at the compose key: pressing Right Alt (keycode 108) on the example
keyboard starts a compose sequence, the engine reports `composing` after the
keysym is fed, and the text callback is nevertheless invoked once (with
codepoint 0); the apostrophe pressed next, still inside the sequence, is
emitted as U+0027. -/
theorem text_emitted_while_composing :
    sampleXkb.xkb_compose_state_get_status (sampleXkb.xkb_compose_state_feed
      sampleState.compose (sampleXkb.xkb_state_key_get_one_sym sampleState.keystate 108)) =
      XKB_COMPOSE_COMPOSING ∧
    textCalls (os_poll_events sampleXkb sampleState [pressOf 108]).2 = [0] ∧
    (os_poll_events sampleXkb sampleState [pressOf 108]).1.compose.status =
      XKB_COMPOSE_COMPOSING ∧
    textCalls (os_poll_events sampleXkb sampleState [pressOf 108, pressOf 48]).2 = [0, 0x27] := by
  decide

end OsLinux

namespace Desktop
open KeyCode MouseButton MouseMode

/-! ## Pitch -/

/-- C7: in every driver state `getPose` succeeds for "head", "hand/left" and
"hand/right"; for every other path it returns failure and leaves both the
position and the orientation output as they were. -/
theorem getPose_known_paths_only (maf : Maf) (s : State) (position : Option Vec3)
    (orientation : Option Quat) :
    (getPose maf s "head" position orientation).1 = true ∧
    (getPose maf s "hand/left" position orientation).1 = true ∧
    (getPose maf s "hand/right" position orientation).1 = true ∧
    (∀ path : String, path ≠ "head" → path ≠ "hand/left" → path ≠ "hand/right" →
      getPose maf s path position orientation = (false, position, orientation)) := by
  refine ⟨?_, ?_, ?_, ?_⟩
  · simp [getPose]
  · simp [getPose]
  · simp [getPose]
  · intro path h1 h2 h3
    simp [getPose, h1, h2, h3]

/-- C7 after `init(0, 4)`: "nonexistent/path" fails and leaves the buffers
untouched. -/
theorem getPose_known_paths_only_witness :
    getPose restMaf (init zeroed 0 4).2 "nonexistent/path" (some ⟨7, 8, 9⟩)
      (some ⟨1, 2, 3, 4⟩) = (false, some ⟨7, 8, 9⟩, some ⟨1, 2, 3, 4⟩) :=
  (getPose_known_paths_only restMaf (init zeroed 0 4).2 (some ⟨7, 8, 9⟩)
    (some ⟨1, 2, 3, 4⟩)).2.2.2 "nonexistent/path" (by decide) (by decide) (by decide)

/-! ## Initialisation -/

/-- C8 as stated fails: after `init(0, 4)` and one `update(1/32)` with the
right key held, a second `init(0, 4)` returns `true` but the position, the
velocity and the local velocity are still those the update left, not zero.
(All the numbers are exact in single precision.) -/
theorem init_keeps_pose_after_update :
    (init (update restMaf (holding [KEY_D]) (init zeroed 0 4).2 (1 / 32)).1 0 4).1 = true ∧
    (init (update restMaf (holding [KEY_D]) (init zeroed 0 4).2 (1 / 32)).1 0 4).2.position =
      ⟨3 / 32, 0, 0⟩ ∧
    (init (update restMaf (holding [KEY_D]) (init zeroed 0 4).2 (1 / 32)).1 0 4).2.velocity =
      ⟨3 / 32, 0, 0⟩ ∧
    (init (update restMaf (holding [KEY_D]) (init zeroed 0 4).2 (1 / 32)).1 0 4).2.localVelocity =
      ⟨9 / 256, 0, 0⟩ ∧
    (init (update restMaf (holding [KEY_D]) (init zeroed 0 4).2 (1 / 32)).1 0 4).2.position ≠
      ⟨0, 0, 0⟩ := by
  have hpos : (update restMaf (holding [KEY_D]) (init zeroed 0 4).2 (1 / 32)).1.position =
      ⟨3 / 32, 0, 0⟩ := by
    simp +decide [update, init, zeroed, holding, mat4_identity, mat4_transformDirection,
      vec3_init, vec3_add, vec3_scale, MAX]
    norm_num
  have hvel : (update restMaf (holding [KEY_D]) (init zeroed 0 4).2 (1 / 32)).1.velocity =
      ⟨3 / 32, 0, 0⟩ := by
    simp +decide [update, init, zeroed, holding, mat4_identity, mat4_transformDirection,
      vec3_init, vec3_add, vec3_scale, MAX]
    norm_num
  have hloc : (update restMaf (holding [KEY_D]) (init zeroed 0 4).2 (1 / 32)).1.localVelocity =
      ⟨9 / 256, 0, 0⟩ := by
    simp +decide [update, init, zeroed, holding, mat4_identity, mat4_transformDirection,
      vec3_init, vec3_add, vec3_scale, MAX]
    norm_num
  refine ⟨rfl, hpos, hvel, hloc, ?_⟩
  show (update restMaf (holding [KEY_D]) (init zeroed 0 4).2 (1 / 32)).1.position ≠ ⟨0, 0, 0⟩
  rw [hpos]
  intro h
  have hx := congrArg Vec3.x h
  norm_num at hx

/-- C8, amended: for every prior state, floor offset and sample count, `init`
returns `true`, stores the offset and the clip distances (`0.1f` and `100.f`),
makes the transform the identity matrix and leaves position, yaw, pitch and
the three velocities as they were; so on the zeroed state (program start, or
after `destroy`) they are all zero. -/
theorem init_identity_transform_keeps_pose (s : State) (offset : ℚ) (msaa : Int) :
    ((init s offset msaa).1 = true ∧
      (init s offset msaa).2.transform = mat4_identity ∧
      (init s offset msaa).2.offset = offset ∧
      (init s offset msaa).2.clipNear = 13421773 / 134217728 ∧
      (init s offset msaa).2.clipFar = 100 ∧
      (init s offset msaa).2.position = s.position ∧
      (init s offset msaa).2.yaw = s.yaw ∧
      (init s offset msaa).2.pitch = s.pitch ∧
      (init s offset msaa).2.velocity = s.velocity ∧
      (init s offset msaa).2.localVelocity = s.localVelocity ∧
      (init s offset msaa).2.angularVelocity = s.angularVelocity) ∧
    ((init (destroy s) offset msaa).1 = true ∧
      (init (destroy s) offset msaa).2.transform = mat4_identity ∧
      (init (destroy s) offset msaa).2.offset = offset ∧
      (init (destroy s) offset msaa).2.clipNear = 13421773 / 134217728 ∧
      (init (destroy s) offset msaa).2.clipFar = 100 ∧
      (init (destroy s) offset msaa).2.position = ⟨0, 0, 0⟩ ∧
      (init (destroy s) offset msaa).2.yaw = 0 ∧
      (init (destroy s) offset msaa).2.pitch = 0 ∧
      (init (destroy s) offset msaa).2.velocity = ⟨0, 0, 0⟩ ∧
      (init (destroy s) offset msaa).2.localVelocity = ⟨0, 0, 0⟩ ∧
      (init (destroy s) offset msaa).2.angularVelocity = ⟨0, 0, 0⟩) :=
  ⟨⟨rfl, rfl, rfl, rfl, rfl, rfl, rfl, rfl, rfl, rfl, rfl⟩,
    ⟨rfl, rfl, rfl, rfl, rfl, rfl, rfl, rfl, rfl, rfl, rfl⟩⟩

/-! ## Movement -/

/-- C9: from the zeroed state, after `init(0, 4)` and one `update(1.0)` with
only the front key (`W`, the up arrow, or both) held and the mouse button that
`update` tests not held, the position has gone from (0, 0, 0) to (0, 0, -3):
z changed by the move speed 3 · dt towards -z, x and y did not change, and
pitch and yaw are still 0. -/
theorem front_key_moves_three_units (maf : Maf) (p : Platform)
    (hfront : (p.isKeyDown KEY_W || p.isKeyDown KEY_UP) = true)
    (hback : p.isKeyDown KEY_S = false ∧ p.isKeyDown KEY_DOWN = false)
    (hleft : p.isKeyDown KEY_A = false ∧ p.isKeyDown KEY_LEFT = false)
    (hright : p.isKeyDown KEY_D = false ∧ p.isKeyDown KEY_RIGHT = false)
    (hupdown : p.isKeyDown KEY_Q = false ∧ p.isKeyDown KEY_E = false)
    (hmouse : p.isMouseDown MOUSE_LEFT = false) :
    (init zeroed 0 4).2.position = ⟨0, 0, 0⟩ ∧
    (init zeroed 0 4).2.pitch = 0 ∧
    (init zeroed 0 4).2.yaw = 0 ∧
    (update maf p (init zeroed 0 4).2 1).1.position = ⟨0, 0, -3⟩ ∧
    (update maf p (init zeroed 0 4).2 1).1.position.z - (init zeroed 0 4).2.position.z =
      -(3 * 1) ∧
    (update maf p (init zeroed 0 4).2 1).1.pitch = 0 ∧
    (update maf p (init zeroed 0 4).2 1).1.yaw = 0 := by
  have hpos : (update maf p (init zeroed 0 4).2 1).1.position = ⟨0, 0, -3⟩ := by
    simp only [update, hfront, hback.1, hback.2, hleft.1, hleft.2, hright.1, hright.2,
      hupdown.1, hupdown.2, hmouse]
    norm_num [init, zeroed, mat4_identity, mat4_transformDirection, vec3_init, vec3_add,
      vec3_scale, MAX]
  have hpitch : (update maf p (init zeroed 0 4).2 1).1.pitch = 0 := by
    simp only [update, hmouse]
    norm_num [init, zeroed, vec3_scale, MAX, MIN, CLAMP, M_PI_F]
  have hyaw : (update maf p (init zeroed 0 4).2 1).1.yaw = 0 := by
    simp only [update, hmouse]
    norm_num [init, zeroed, vec3_scale, MAX]
  refine ⟨rfl, rfl, rfl, hpos, ?_, hpitch, hyaw⟩
  rw [hpos]
  norm_num [init, zeroed]

/-- C9 with the `W` key alone on the example window. -/
theorem front_key_moves_three_units_witness :
    (update restMaf (holding [KEY_W]) (init zeroed 0 4).2 1).1.position = ⟨0, 0, -3⟩ ∧
    (update restMaf (holding [KEY_W]) (init zeroed 0 4).2 1).1.pitch = 0 ∧
    (update restMaf (holding [KEY_W]) (init zeroed 0 4).2 1).1.yaw = 0 :=
  have h := front_key_moves_three_units restMaf (holding [KEY_W]) (by decide)
    (by decide) (by decide) (by decide) (by decide) (by decide)
  ⟨h.2.2.2.1, h.2.2.2.2.2.1, h.2.2.2.2.2.2⟩

/-! ## Damping -/

theorem damping_range (dt : ℚ) (hdt : 0 ≤ dt) :
    0 ≤ MAX (1 - 20 * dt) 0 ∧ MAX (1 - 20 * dt) 0 ≤ 1 := by
  unfold MAX
  constructor
  · split_ifs <;> linarith
  · split_ifs <;> linarith

theorem update_idle (maf : Maf) (p : Platform) (s : State) (dt : ℚ) (hidle : p.idle) :
    (update maf p s dt).1.localVelocity = vec3_scale s.localVelocity (MAX (1 - 20 * dt) 0) ∧
    (update maf p s dt).1.angularVelocity =
      vec3_scale s.angularVelocity (MAX (1 - 20 * dt) 0) := by
  obtain ⟨hkeys, hmouse⟩ := hidle
  constructor
  · simp [update, hkeys, hmouse, vec3_scale]
  · simp [update, hmouse]

theorem updates_idle (maf : Maf) (steps : List (Platform × ℚ)) (s : State)
    (hall : ∀ step ∈ steps, 0 ≤ step.2 ∧ step.1.idle) :
    ∃ d : ℚ, 0 ≤ d ∧ d ≤ 1 ∧
      (updates maf s steps).localVelocity = vec3_scale s.localVelocity d ∧
      (updates maf s steps).angularVelocity = vec3_scale s.angularVelocity d := by
  induction steps generalizing s with
  | nil => exact ⟨1, by norm_num, le_refl 1, by simp [updates, vec3_scale],
      by simp [updates, vec3_scale]⟩
  | cons step rest ih =>
    obtain ⟨hdt, hidle⟩ := hall step (List.mem_cons_self _ _)
    obtain ⟨d, hd0, hd1, hlocal, hangular⟩ :=
      ih (update maf step.1 s step.2).1 fun st hst => hall st (List.mem_cons_of_mem _ hst)
    obtain ⟨h0, h1⟩ := damping_range step.2 hdt
    obtain ⟨hl, ha⟩ := update_idle maf step.1 s step.2 hidle
    refine ⟨MAX (1 - 20 * step.2) 0 * d, mul_nonneg h0 hd0, ?_, ?_, ?_⟩
    · calc MAX (1 - 20 * step.2) 0 * d ≤ 1 * 1 := mul_le_mul h1 hd1 hd0 (by norm_num)
        _ = 1 := by norm_num
    · simp only [updates]
      rw [hlocal, hl]
      simp [vec3_scale, mul_assoc]
    · simp only [updates]
      rw [hangular, ha]
      simp [vec3_scale, mul_assoc]

end Desktop

namespace Desktop
open KeyCode MouseButton MouseMode

/-! ## Mouse buttons -/

theorem Vec3.eq_of_components (v : Vec3) (a b c : ℚ) (hx : v.x = a) (hy : v.y = b)
    (hz : v.z = c) : v = ⟨a, b, c⟩ := by
  cases v
  simp_all

theorem update_released (maf : Maf) (p : Platform) (s : State) (dt : ℚ)
    (hleft : p.isMouseDown MOUSE_LEFT = false) :
    (update maf p s dt).2 = MOUSE_MODE_NORMAL ∧
    (update maf p s dt).1.angularVelocity =
      vec3_scale s.angularVelocity (MAX (1 - 20 * dt) 0) ∧
    (update maf p s dt).1.prevCursorX = -1 ∧
    (update maf p s dt).1.prevCursorY = -1 := by
  simp [update, hleft]

theorem update_held (maf : Maf) (p : Platform) (s : State) (dt : ℚ)
    (hleft : p.isMouseDown MOUSE_LEFT = true) :
    (update maf p s dt).2 = MOUSE_MODE_GRABBED ∧
    (update maf p s dt).1.angularVelocity.x =
      (p.mouseY - (if s.prevCursorX = -1 ∧ s.prevCursorY = -1 then p.mouseY else s.prevCursorY)) /
        ((p.windowHeight : ℚ) * ((p.windowWidth : ℚ) / (p.windowHeight : ℚ))) / dt ∧
    (update maf p s dt).1.angularVelocity.y =
      (p.mouseX - (if s.prevCursorX = -1 ∧ s.prevCursorY = -1 then p.mouseX else s.prevCursorX)) /
        (p.windowWidth : ℚ) / dt ∧
    (update maf p s dt).1.angularVelocity.z = s.angularVelocity.z ∧
    (update maf p s dt).1.prevCursorX = p.mouseX ∧
    (update maf p s dt).1.prevCursorY = p.mouseY := by
  by_cases hprev : s.prevCursorX = -1 ∧ s.prevCursorY = -1
  · simp [update, hleft, hprev]
  · simp [update, hleft, hprev]

theorem update_yaw (maf : Maf) (p : Platform) (s : State) (dt : ℚ) :
    (update maf p s dt).1.yaw = s.yaw - (update maf p s dt).1.angularVelocity.y * (3 * dt) := by
  unfold update
  dsimp only
  split_ifs <;> rfl

theorem restedState_fields :
    restedState.angularVelocity = ⟨0, 0, 0⟩ ∧ restedState.yaw = 0 ∧
    restedState.prevCursorX = -1 ∧ restedState.prevCursorY = -1 := by
  have hleft : (holding []).isMouseDown MOUSE_LEFT = false := rfl
  obtain ⟨_, hang, hx, hy⟩ := update_released restMaf (holding []) (init zeroed 0 4).2 (1 / 40) hleft
  have hyaw := update_yaw restMaf (holding []) (init zeroed 0 4).2 (1 / 40)
  unfold restedState
  refine ⟨?_, ?_, hx, hy⟩
  · rw [hang]
    simp [init, zeroed, vec3_scale]
  · rw [hyaw, hang]
    simp [init, zeroed, vec3_scale]

/-- C11 as stated fails: the button `isDown` reports is not the one that makes
`update` turn the head.  With only the right button held while the cursor
moves 100 pixels, `isDown` reports the button down and `update` keeps the
normal mouse mode and does not rotate; with only the left button held over the
same movement, `isDown` reports it up and `update` grabs the mouse and turns
the cursor movement into angular velocity and yaw. -/
theorem isDown_button_is_not_the_turning_button :
    isDown (pointing false true 500 300) "hand/left" false = (true, true) ∧
    (update restMaf (pointing false true 400 300) restedState (1 / 40)).2 = MOUSE_MODE_NORMAL ∧
    (updates restMaf restedState [(pointing false true 400 300, 1 / 40),
      (pointing false true 500 300, 1 / 40)]).angularVelocity = ⟨0, 0, 0⟩ ∧
    (updates restMaf restedState [(pointing false true 400 300, 1 / 40),
      (pointing false true 500 300, 1 / 40)]).yaw = 0 ∧
    isDown (pointing true false 500 300) "hand/left" true = (true, false) ∧
    (update restMaf (pointing true false 400 300) restedState (1 / 40)).2 = MOUSE_MODE_GRABBED ∧
    (updates restMaf restedState [(pointing true false 400 300, 1 / 40),
      (pointing true false 500 300, 1 / 40)]).angularVelocity = ⟨0, 5, 0⟩ ∧
    (updates restMaf restedState [(pointing true false 400 300, 1 / 40),
      (pointing true false 500 300, 1 / 40)]).yaw = -(3 / 8) := by
  obtain ⟨hang, hyaw, hpx, hpy⟩ := restedState_fields
  have hr : ∀ x y : ℚ, (pointing false true x y).isMouseDown MOUSE_LEFT = false := fun _ _ => rfl
  have hl : ∀ x y : ℚ, (pointing true false x y).isMouseDown MOUSE_LEFT = true := fun _ _ => rfl
  -- right button held: two released frames
  obtain ⟨hmode1, ha1, _, _⟩ :=
    update_released restMaf (pointing false true 400 300) restedState (1 / 40) (hr _ _)
  have hy1 := update_yaw restMaf (pointing false true 400 300) restedState (1 / 40)
  obtain ⟨_, ha2, _, _⟩ := update_released restMaf (pointing false true 500 300)
    (update restMaf (pointing false true 400 300) restedState (1 / 40)).1 (1 / 40) (hr _ _)
  have hy2 := update_yaw restMaf (pointing false true 500 300)
    (update restMaf (pointing false true 400 300) restedState (1 / 40)).1 (1 / 40)
  -- left button held: two grabbed frames
  obtain ⟨hmode3, hx3, hy3, hz3, hpx3, hpy3⟩ :=
    update_held restMaf (pointing true false 400 300) restedState (1 / 40) (hl _ _)
  have hyaw3 := update_yaw restMaf (pointing true false 400 300) restedState (1 / 40)
  obtain ⟨_, hx4, hy4, hz4, _, _⟩ := update_held restMaf (pointing true false 500 300)
    (update restMaf (pointing true false 400 300) restedState (1 / 40)).1 (1 / 40) (hl _ _)
  have hyaw4 := update_yaw restMaf (pointing true false 500 300)
    (update restMaf (pointing true false 400 300) restedState (1 / 40)).1 (1 / 40)
  rw [hpx, hpy] at hx3 hy3
  rw [hang] at ha1 hz3
  rw [ha1] at ha2 hy1
  rw [hyaw] at hy1 hyaw3
  rw [hy1, ha2] at hy2
  rw [hpx3, hpy3] at hx4 hy4
  rw [hy3] at hyaw3
  rw [hyaw3, hy4] at hyaw4
  refine ⟨by decide, hmode1, ?_, ?_, by decide, hmode3, ?_, ?_⟩
  · simp only [updates]
    rw [ha2]
    simp [vec3_scale]
  · simp only [updates]
    rw [hy2]
    simp [vec3_scale]
  · simp only [updates]
    have hx : (update restMaf (pointing true false 500 300)
        (update restMaf (pointing true false 400 300) restedState (1 / 40)).1
        (1 / 40)).1.angularVelocity.x = 0 := by
      rw [hx4]
      norm_num [pointing]
    have hy : (update restMaf (pointing true false 500 300)
        (update restMaf (pointing true false 400 300) restedState (1 / 40)).1
        (1 / 40)).1.angularVelocity.y = 5 := by
      rw [hy4]
      norm_num [pointing]
    exact Vec3.eq_of_components _ 0 5 0 hx hy (hz4.trans hz3)
  · simp only [updates]
    rw [hyaw4]
    norm_num [pointing]

/-- C11, amended: for "hand/left" and "hand/right" `isDown` returns success and
writes the current state of the right mouse button; for every other path it
returns failure and leaves its output as it was.  The button whose being held
makes `update` grab the mouse and derive the angular velocity from the cursor
movement is the left one: while it is up, `update` keeps the normal mouse mode
and only damps the angular velocity, whatever the right button and the cursor
do. -/
theorem isDown_right_button_update_left_button (maf : Maf) (p : Platform) (s : State)
    (dt : ℚ) (down : Bool) :
    isDown p "hand/left" down = (true, p.isMouseDown MOUSE_RIGHT) ∧
    isDown p "hand/right" down = (true, p.isMouseDown MOUSE_RIGHT) ∧
    (∀ path : String, path ≠ "hand/left" → path ≠ "hand/right" →
      isDown p path down = (false, down)) ∧
    (p.isMouseDown MOUSE_LEFT = true →
      (update maf p s dt).2 = MOUSE_MODE_GRABBED ∧
      (update maf p s dt).1.angularVelocity.x =
        (p.mouseY -
          (if s.prevCursorX = -1 ∧ s.prevCursorY = -1 then p.mouseY else s.prevCursorY)) /
          ((p.windowHeight : ℚ) * ((p.windowWidth : ℚ) / (p.windowHeight : ℚ))) / dt ∧
      (update maf p s dt).1.angularVelocity.y =
        (p.mouseX -
          (if s.prevCursorX = -1 ∧ s.prevCursorY = -1 then p.mouseX else s.prevCursorX)) /
          (p.windowWidth : ℚ) / dt) ∧
    (p.isMouseDown MOUSE_LEFT = false →
      (update maf p s dt).2 = MOUSE_MODE_NORMAL ∧
      (update maf p s dt).1.angularVelocity =
        vec3_scale s.angularVelocity (MAX (1 - 20 * dt) 0)) := by
  refine ⟨by simp [isDown], by simp [isDown], ?_, ?_, ?_⟩
  · intro path h1 h2
    simp [isDown, h1, h2]
  · intro hleft
    obtain ⟨hmode, hx, hy, _, _, _⟩ := update_held maf p s dt hleft
    exact ⟨hmode, hx, hy⟩
  · intro hleft
    obtain ⟨hmode, hang, _, _⟩ := update_released maf p s dt hleft
    exact ⟨hmode, hang⟩

/-- C11 amended, on the example window: "head" is unsupported and leaves the
output alone, the left button grabs, and with only the right button held the
mouse mode stays normal. -/
theorem isDown_right_button_update_left_button_witness :
    isDown (pointing false true 500 300) "head" false = (false, false) ∧
    (update restMaf (pointing true false 500 300) restedState (1 / 40)).2 =
      MOUSE_MODE_GRABBED ∧
    (update restMaf (pointing false true 500 300) restedState (1 / 40)).2 =
      MOUSE_MODE_NORMAL :=
  ⟨(isDown_right_button_update_left_button restMaf (pointing false true 500 300) restedState
      (1 / 40) false).2.2.1 "head" (by decide) (by decide),
    ((isDown_right_button_update_left_button restMaf (pointing true false 500 300) restedState
      (1 / 40) false).2.2.2.1 rfl).1,
    ((isDown_right_button_update_left_button restMaf (pointing false true 500 300) restedState
      (1 / 40) false).2.2.2.2 rfl).1⟩

/-! ## First frame of a grab -/

/-- After an update with the left button up, the next update with it held uses
a zero cursor delta: pitch and yaw rate are 0 and the previous-cursor fields
become the cursor position. -/
theorem first_grab_after_release (maf : Maf) (before p : Platform) (s : State) (dt0 dt : ℚ)
    (hup : before.isMouseDown MOUSE_LEFT = false) (hheld : p.isMouseDown MOUSE_LEFT = true) :
    (update maf p (update maf before s dt0).1 dt).1.angularVelocity.x = 0 ∧
    (update maf p (update maf before s dt0).1 dt).1.angularVelocity.y = 0 ∧
    (update maf p (update maf before s dt0).1 dt).1.prevCursorX = p.mouseX ∧
    (update maf p (update maf before s dt0).1 dt).1.prevCursorY = p.mouseY := by
  obtain ⟨_, _, hpx, hpy⟩ := update_released maf before s dt0 hup
  obtain ⟨_, hx, hy, _, hx1, hy1⟩ := update_held maf p (update maf before s dt0).1 dt hheld
  rw [hpx, hpy] at hx hy
  refine ⟨?_, ?_, hx1, hy1⟩
  · rw [hx]
    simp
  · rw [hy]
    simp

/-- C12 on a fresh driver: after `init(0, 4)` the previous-cursor fields are 0,
not the sentinel -1, so a first `update(1/40)` with the left button held and
the cursor at (400, 300) in an 800x600 window takes the cursor position itself
as the delta: the pitch and yaw components of the angular velocity become 15
and 20 instead of 0.  The previous-cursor fields do become the cursor
position. -/
theorem first_grab_on_fresh_driver_uses_cursor_position :
    (init zeroed 0 4).2.prevCursorX = 0 ∧
    (init zeroed 0 4).2.prevCursorY = 0 ∧
    (update restMaf (pointing true false 400 300) (init zeroed 0 4).2
      (1 / 40)).1.angularVelocity = ⟨15, 20, 0⟩ ∧
    (update restMaf (pointing true false 400 300) (init zeroed 0 4).2
      (1 / 40)).1.prevCursorX = 400 ∧
    (update restMaf (pointing true false 400 300) (init zeroed 0 4).2
      (1 / 40)).1.prevCursorY = 300 := by
  obtain ⟨_, hx, hy, hz, hpx, hpy⟩ := update_held restMaf (pointing true false 400 300)
    (init zeroed 0 4).2 (1 / 40) rfl
  have hx1 : (update restMaf (pointing true false 400 300) (init zeroed 0 4).2
      (1 / 40)).1.angularVelocity.x = 15 := by
    rw [hx]
    norm_num [pointing, init, zeroed]
  have hy1 : (update restMaf (pointing true false 400 300) (init zeroed 0 4).2
      (1 / 40)).1.angularVelocity.y = 20 := by
    rw [hy]
    norm_num [pointing, init, zeroed]
  have hz1 : (update restMaf (pointing true false 400 300) (init zeroed 0 4).2
      (1 / 40)).1.angularVelocity.z = 0 := by
    rw [hz]
    rfl
  exact ⟨rfl, rfl, Vec3.eq_of_components _ 15 20 0 hx1 hy1 hz1, hpx, hpy⟩

end Desktop

namespace OsLinux
open os_key os_mouse_button xkb_compose_status

/-! ## Window lifecycle -/

/-- After `os_destroy` there is no connection: `os_window_is_open` is false and
`os_poll_events` does nothing, whatever is queued. -/
theorem os_destroy_closes {K C : Type} (xkb : Xkb K C) (nullKeystate : K) (nullCompose : C)
    (s : State K C) (queue : List Event) :
    os_window_is_open (os_destroy nullKeystate nullCompose s) = false ∧
    os_poll_events xkb (os_destroy nullKeystate nullCompose s) queue =
      (os_destroy nullKeystate nullCompose s, []) := by
  constructor
  · simp [os_window_is_open, os_destroy]
  · simp [os_poll_events, os_destroy]

/-- A successful `os_window_open` leaves the window open. -/
theorem os_window_open_success {K C : Type} (x : XServer K C) (s : State K C)
    (config : os_window_config) (hptr : x.connection ≠ 0) (hok : x.has_error = false) :
    (os_window_open x s config).1 = true ∧
    os_window_is_open (os_window_open x s config).2 = true := by
  simp [os_window_open, os_window_is_open, hok, hptr]

/-- A failed `os_window_open` keeps the pointer of the connection it has just
disconnected: `os_window_is_open` is true afterwards and `os_poll_events` does
not take its early return. -/
theorem os_window_open_failure {K C : Type} (xkb : Xkb K C) (x : XServer K C) (s : State K C)
    (config : os_window_config) (queue : List Event) (hptr : x.connection ≠ 0)
    (herr : x.has_error = true) :
    (os_window_open x s config).1 = false ∧
    (os_window_open x s config).2.connection = x.connection ∧
    os_window_is_open (os_window_open x s config).2 = true ∧
    os_poll_events xkb (os_window_open x s config).2 queue =
      os_poll_events_loop xkb (os_window_open x s config).2 queue := by
  simp [os_window_open, os_window_is_open, os_poll_events, herr, hptr]

/-- C13 without an X server: starting from the state `os_destroy` leaves,
where `os_window_is_open` is false, `os_window_open` returns false because the
connection has an error, and `os_window_is_open` returns true afterwards: the
pointer handed out by `xcb_connect` is still stored. -/
theorem failed_open_leaves_window_open :
    os_window_is_open closedState = false ∧
    (os_window_open noDisplay closedState sampleConfig).1 = false ∧
    (os_window_open noDisplay closedState sampleConfig).2.connection = 1 ∧
    os_window_is_open (os_window_open noDisplay closedState sampleConfig).2 = true := by
  decide

end OsLinux

namespace Desktop.Ieee
open KeyCode MouseButton MouseMode Fl

/-! ## Floats with infinities and NaN -/

theorem Fl.fin_add (a b : ℚ) : fin a + fin b = fin (a + b) := rfl

theorem Fl.fin_mul (a b : ℚ) : fin a * fin b = fin (a * b) := rfl

theorem Fl.fin_neg (a : ℚ) : -fin a = fin (-a) := rfl

theorem Fl.fin_sub (a b : ℚ) : fin a - fin b = fin (a - b) := by
  show fin (a + -b) = fin (a - b)
  rw [sub_eq_add_neg]

theorem Fl.fin_div (a b : ℚ) (hb : b ≠ 0) : fin a / fin b = fin (a / b) := by
  show (if b = 0 then Fl.signedInf a true else fin (a / b)) = fin (a / b)
  rw [if_neg hb]

theorem Fl.lt_fin (a b : ℚ) : Fl.lt (fin a) (fin b) = decide (a < b) := rfl

theorem MAX_fin (a b : ℚ) : MAX (fin a) (fin b) = fin (Desktop.MAX a b) := by
  unfold MAX Desktop.MAX
  rw [Fl.lt_fin]
  by_cases h : a > b
  · simp [h]
  · simp [h]

theorem MIN_fin (a b : ℚ) : MIN (fin a) (fin b) = fin (Desktop.MIN a b) := by
  unfold MIN Desktop.MIN
  rw [Fl.lt_fin]
  by_cases h : a < b
  · simp [h]
  · simp [h]

theorem CLAMP_fin (x lo hi : ℚ) :
    CLAMP (fin x) (fin lo) (fin hi) = fin (Desktop.CLAMP x lo hi) := by
  unfold CLAMP Desktop.CLAMP
  rw [MIN_fin, MAX_fin]

end Desktop.Ieee

namespace Desktop.Ieee
open KeyCode MouseButton MouseMode Fl

/-! ## Pitch -/

theorem Fl.eq_fin (a b : ℚ) : Fl.eq (fin a) (fin b) = decide (a = b) := by
  simp [Fl.eq]

theorem Fl.ninf_mul_fin (b : ℚ) : ninf * fin b = Fl.signedInf b false := rfl

end Desktop.Ieee

namespace Desktop.Ieee
open KeyCode MouseButton MouseMode Fl

end Desktop.Ieee

namespace Desktop.Ieee
open KeyCode MouseButton MouseMode Fl

/-! ## Agreement of the two embeddings -/

theorem Fl.fin_ite (c : Prop) [Decidable c] (a b : ℚ) :
    fin (if c then a else b) = if c then fin a else fin b := by
  split_ifs <;> rfl

theorem mat4_translate_embed (m : Desktop.Mat4) (x y z : ℚ) :
    mat4_translate (embedMat4 m) (fin x) (fin y) (fin z) =
      embedMat4 (Desktop.mat4_translate m x y z) := rfl

theorem mat4_transformDirection_embed (m : Desktop.Mat4) (v : Desktop.Vec3) :
    mat4_transformDirection (embedMat4 m) (embedVec3 v) =
      embedVec3 (Desktop.mat4_transformDirection m v) := rfl

theorem mat4_transformDirection_fin (m : Desktop.Mat4) (a b c : ℚ) :
    mat4_transformDirection (embedMat4 m) ⟨fin a, fin b, fin c⟩ =
      ⟨fin (a * m.m0 + b * m.m4 + c * m.m8), fin (a * m.m1 + b * m.m5 + c * m.m9),
        fin (a * m.m2 + b * m.m6 + c * m.m10)⟩ := rfl

theorem Fl.fin_div_two (a : ℚ) : fin a / fin 2 = fin (a / 2) :=
  Fl.fin_div a 2 (by norm_num)

theorem mat4_identity_embed : mat4_identity = embedMat4 Desktop.mat4_identity := rfl

/-- On finite states `init` is the same in both embeddings. -/
theorem init_agrees (s : Desktop.State) (offset : ℚ) (msaa : Int) :
    init (embedState s) (fin offset) msaa =
      ((Desktop.init s offset msaa).1, embedState (Desktop.init s offset msaa).2) := rfl

/-- On a state whose fields are all finite and in a frame without a division by
zero, the driver over floats with infinities and NaN does what the driver over
the rationals does. -/
theorem update_agrees_on_finite (maf : Desktop.Maf) (mafF : Maf)
    (hmaf : ∀ (m : Desktop.Mat4) (angle x y z : ℚ),
      mafF.mat4_rotate (embedMat4 m) (fin angle) (fin x) (fin y) (fin z) =
        embedMat4 (maf.mat4_rotate m angle x y z))
    (p : Platform) (s : Desktop.State) (t : ℚ)
    (hsafe : p.isMouseDown MOUSE_LEFT = true →
      t ≠ 0 ∧ p.windowWidth ≠ 0 ∧ p.windowHeight ≠ 0) :
    update mafF p (embedState s) (fin t) =
      (embedState (Desktop.update maf p s t).1, (Desktop.update maf p s t).2) := by
  by_cases hleft : p.isMouseDown MOUSE_LEFT = true
  · obtain ⟨ht, hw, hh⟩ := hsafe hleft
    have hw0 : (p.windowWidth : ℚ) ≠ 0 := by exact_mod_cast hw
    have hh0 : (p.windowHeight : ℚ) ≠ 0 := by exact_mod_cast hh
    have hden : (p.windowHeight : ℚ) * ((p.windowWidth : ℚ) / (p.windowHeight : ℚ)) ≠ 0 :=
      mul_ne_zero hh0 (div_ne_zero hw0 hh0)
    by_cases hc : s.prevCursorX = -1 ∧ s.prevCursorY = -1
    · simp [update, Desktop.update, hleft, hc, Fl.eq_fin, embedState, embedVec3, vec3_scale,
        Desktop.vec3_scale, vec3_init, Desktop.vec3_init, vec3_add, Desktop.vec3_add,
        mat4_transformDirection_fin, Desktop.mat4_transformDirection, Fl.fin_mul, Fl.fin_sub,
        Fl.fin_add, Fl.fin_neg, Fl.fin_div _ _ ht, Fl.fin_div _ _ hw0, Fl.fin_div _ _ hh0,
        Fl.fin_div _ _ hden, ← Fl.fin_ite, MAX_fin, CLAMP_fin, Fl.fin_div_two,
        mat4_identity_embed, mat4_translate_embed, hmaf]
    · simp [update, Desktop.update, hleft, hc, Fl.eq_fin, embedState, embedVec3, vec3_scale,
        Desktop.vec3_scale, vec3_init, Desktop.vec3_init, vec3_add, Desktop.vec3_add,
        mat4_transformDirection_fin, Desktop.mat4_transformDirection, Fl.fin_mul, Fl.fin_sub,
        Fl.fin_add, Fl.fin_neg, Fl.fin_div _ _ ht, Fl.fin_div _ _ hw0, Fl.fin_div _ _ hh0,
        Fl.fin_div _ _ hden, ← Fl.fin_ite, MAX_fin, CLAMP_fin, Fl.fin_div_two,
        mat4_identity_embed, mat4_translate_embed, hmaf]
  · have hup : p.isMouseDown MOUSE_LEFT = false := by simpa using hleft
    simp [update, Desktop.update, hup, embedState, embedVec3, vec3_scale, Desktop.vec3_scale,
      vec3_init, Desktop.vec3_init, vec3_add, Desktop.vec3_add, mat4_transformDirection_fin,
      Desktop.mat4_transformDirection, Fl.fin_mul, Fl.fin_sub, Fl.fin_add, Fl.fin_neg,
      ← Fl.fin_ite, MAX_fin, CLAMP_fin, Fl.fin_div_two, mat4_identity_embed,
      mat4_translate_embed, hmaf]

end Desktop.Ieee
